import Mathlib

/-!
Shallow embedding of the FinWall invoice system's financial core
(`backend/app/services/{invoice,quote,payment}_service.py`) and proofs of the
frozen claims about it.

Modelling conventions:
* Monetary amounts are integers in cents (the source uses `Decimal` with two
  fraction digits). Quantities are integers in thousandths (source: three
  fraction digits), tax rates in hundredths of a percent (source: percentage
  with two fraction digits, e.g. `18.00` becomes `1800`).
* `Decimal.quantize(Decimal("0.01"))` under Python's default context rounds
  half-to-even; `roundHalfEvenDiv n d` rounds the exact rational `n / d` to the
  nearest integer with ties to even, which is exactly that operation once the
  operands are expressed in the scaled-integer units above.
* Document numbers are modelled as `List Char` so that the source's
  `last_number.split("-")[1]` / `int(...)` / `f"{num:05d}"` pipeline can be
  embedded and reasoned about directly.
* The ORM session is modelled as an explicit `DB` record; `datetime.utcnow()`
  is the `now` field, `date.today()` the `today` field, and row creation takes
  fresh ids from `next_id`. Raised `NotFoundException` / `ValidationException`
  become `Except.error`; every raise in the source happens before any mutation,
  so an error result carries no state change.
-/

/-- Round `n / d` (with `d > 0`) to the nearest integer, ties to even: the
rounding performed by `Decimal.quantize(Decimal("0.01"))` under Python's
default `ROUND_HALF_EVEN` context, with all values scaled to integers. -/
def roundHalfEvenDiv (n d : Nat) : Nat :=
  let q := n / d
  let r := n % d
  if 2 * r < d then q
  else if d < 2 * r then q + 1
  else if q % 2 = 0 then q else q + 1

/-- The ASCII digit character for `d < 10`, as produced by Python's decimal
formatting. -/
def digitChar (d : Nat) : Char := Char.ofNat (48 + d)

/-- Decimal rendering worker, structurally recursive on a fuel argument so
that concrete document numbers evaluate inside the kernel; any fuel above the
argument itself is enough (each step divides the argument by 10). -/
def toDecimalAux : Nat → Nat → List Char
  | 0, _ => []
  | fuel + 1, n =>
    if n < 10 then [digitChar n]
    else toDecimalAux fuel (n / 10) ++ [digitChar (n % 10)]

/-- Decimal rendering of a natural number, most significant digit first:
the digit string produced by Python's `str` / `"%d"` formatting. -/
def toDecimal (n : Nat) : List Char := toDecimalAux (n + 1) n

/-- `f"{num:05d}"`: zero-pad the decimal rendering to width 5 (wider numbers
are untouched). -/
def pad5 (n : Nat) : List Char :=
  let s := toDecimal n
  List.replicate (5 - s.length) '0' ++ s

/-- Python `int(s)` restricted to plain digit strings: `some` of the value when
`s` is nonempty and all digits, `none` (an exception in the source) otherwise. -/
def parseDecimal (s : List Char) : Option Nat :=
  if s.isEmpty then none
  else if s.all Char.isDigit then
    some (s.foldl (fun a c => a * 10 + (c.toNat - 48)) 0)
  else none

/-- Python `s.split(sep)` for a single-character separator. -/
def splitOnChar (c : Char) : List Char → List (List Char)
  | [] => [[]]
  | x :: xs =>
    match splitOnChar c xs with
    | [] => if x == c then [[], []] else [[x]]
    | g :: gs => if x == c then [] :: g :: gs else (x :: g) :: gs

/-- The shared `_generate_*_number` parsing step: from the most recently
created document number (if any), `int(last_number.split("-")[1]) + 1`,
falling back to `1` when there is no prior number, the split has no second
field, or parsing raises. -/
def nextNumberFrom (last : Option (List Char)) : Nat :=
  match last with
  | none => 1
  | some s =>
    match (splitOnChar '-' s).drop 1 with
    | [] => 1
    | p :: _ =>
      match parseDecimal p with
      | some n => n + 1
      | none => 1

example : toDecimal 28600 = ['2', '8', '6', '0', '0'] := by decide
example : pad5 7 = ['0', '0', '0', '0', '7'] := by decide
example : pad5 123456 = ['1', '2', '3', '4', '5', '6'] := by decide
example : splitOnChar '-' "INV-00012".toList = ["INV".toList, "00012".toList] := by decide
example : nextNumberFrom (some "INV-00012".toList) = 13 := by decide
example : nextNumberFrom (some "INV-".toList) = 1 := by decide
example : nextNumberFrom (some "garbage".toList) = 1 := by decide
example : nextNumberFrom none = 1 := by decide
example : roundHalfEvenDiv 150 100 = 2 := by decide
example : roundHalfEvenDiv 250 100 = 2 := by decide
example : roundHalfEvenDiv 136 100 = 1 := by decide

/-! ## Data model (`app/models`, `app/schemas`) -/

/-- `Invoice.status` (`models/invoice.py`): stored string column restricted by
the code to these values. -/
inductive InvoiceStatus
  | DRAFT | SENT | VIEWED | PARTIALLY_PAID | PAID | OVERDUE | VOID
deriving DecidableEq, Repr

/-- `Quote.status` (`models/quote.py`). -/
inductive QuoteStatus
  | DRAFT | SENT | VIEWED | ACCEPTED | REJECTED | EXPIRED | CONVERTED
deriving DecidableEq, Repr

/-- `models/customer.py`, restricted to the fields the services read. -/
structure Customer where
  id : Nat
  organization_id : Nat
  currency_code : String
  payment_terms_days : Nat
  is_deleted : Bool
deriving DecidableEq, Repr

/-- `models/item.py`, restricted to the fields the services read. -/
structure Item where
  id : Nat
  organization_id : Nat
  is_deleted : Bool
deriving DecidableEq, Repr

/-- `models/tax.py`: `rate` in hundredths of a percent. -/
structure Tax where
  id : Nat
  organization_id : Nat
  rate : Nat
  is_deleted : Bool
deriving DecidableEq, Repr

/-- `models/invoice.py` `Invoice`: money in cents (`Int`, since gateway
payments can drive `balance_due` negative), timestamps as `Option Nat`. -/
structure Invoice where
  id : Nat
  organization_id : Nat
  customer_id : Nat
  invoice_number : List Char
  status : InvoiceStatus
  invoice_date : Int
  due_date : Int
  subtotal : Int
  tax_total : Int
  total : Int
  amount_paid : Int
  balance_due : Int
  currency_code : String
  payment_terms_days : Nat
  notes : Option String
  internal_notes : Option String
  terms_and_conditions : Option String
  sent_at : Option Nat
  viewed_at : Option Nat
  paid_at : Option Nat
  voided_at : Option Nat
  void_reason : Option String
  is_deleted : Bool
  created_by : Option Nat
deriving DecidableEq, Repr

/-- `models/invoice.py` `InvoiceItem`: quantity in thousandths, rate and the
money fields in cents, `tax_rate` in hundredths of a percent. -/
structure InvoiceItem where
  invoice_id : Nat
  item_id : Option Nat
  description : String
  quantity : Nat
  rate : Nat
  amount : Nat
  tax_id : Option Nat
  tax_rate : Nat
  tax_amount : Nat
  total : Nat
  sort_order : Nat
deriving DecidableEq, Repr

/-- `models/quote.py` `Quote`, restricted to the fields the services touch. -/
structure Quote where
  id : Nat
  organization_id : Nat
  customer_id : Nat
  quote_number : List Char
  status : QuoteStatus
  quote_date : Int
  expiry_date : Int
  subtotal : Int
  tax_total : Int
  total : Int
  currency_code : String
  notes : Option String
  terms_and_conditions : Option String
  sent_at : Option Nat
  accepted_at : Option Nat
  rejected_at : Option Nat
  converted_at : Option Nat
  converted_invoice_id : Option Nat
  is_deleted : Bool
  created_by : Nat
deriving DecidableEq, Repr

/-- `models/quote.py` `QuoteItem`: same shape as `InvoiceItem`. -/
structure QuoteItem where
  quote_id : Nat
  item_id : Option Nat
  description : String
  quantity : Nat
  rate : Nat
  amount : Nat
  tax_id : Option Nat
  tax_rate : Nat
  tax_amount : Nat
  total : Nat
  sort_order : Nat
deriving DecidableEq, Repr

/-- `models/payment.py` `Payment`. -/
structure Payment where
  id : Nat
  organization_id : Nat
  customer_id : Nat
  invoice_id : Nat
  payment_number : List Char
  payment_date : Int
  amount : Int
  payment_method : String
  reference_number : Option String
  notes : Option String
  gateway_name : Option String
  gateway_payment_id : Option String
  gateway_order_id : Option String
  gateway_response : Option String
  is_voided : Bool
  voided_at : Option Nat
  void_reason : Option String
  voided_by : Option Nat
  created_by : Option Nat
deriving DecidableEq, Repr

/-- The ORM session / database state seen by the services. Row lists are kept
most-recently-created first, so the head of a list is the row the
`order_by(created_at.desc()).limit(1)` queries return; `next_id` supplies the
primary key a flush would assign; `now` and `today` stand for
`datetime.utcnow()` and `date.today()`. -/
structure DB where
  invoices : List Invoice
  invoice_items : List InvoiceItem
  quotes : List Quote
  quote_items : List QuoteItem
  payments : List Payment
  customers : List Customer
  items : List Item
  taxes : List Tax
  next_id : Nat
  now : Nat
  today : Int
deriving DecidableEq, Repr

/-- `schemas/invoice.py` `InvoiceItemCreate` (pydantic enforces
`quantity > 0`, `rate ≥ 0` at the boundary, hence the `Nat` fields). -/
structure InvoiceItemCreate where
  item_id : Option Nat
  description : String
  quantity : Nat
  rate : Nat
  tax_id : Option Nat
deriving DecidableEq, Repr

/-- `schemas/invoice.py` `InvoiceCreate`. -/
structure InvoiceCreate where
  customer_id : Nat
  invoice_date : Int
  due_date : Int
  notes : Option String
  internal_notes : Option String
  terms_and_conditions : Option String
  items : List InvoiceItemCreate
deriving DecidableEq, Repr

/-- `schemas/quote.py` `QuoteItemCreate` (same boundary constraints as the
invoice variant). -/
structure QuoteItemCreate where
  item_id : Option Nat
  description : String
  quantity : Nat
  rate : Nat
  tax_id : Option Nat
deriving DecidableEq, Repr

/-- `schemas/quote.py` `QuoteCreate`. -/
structure QuoteCreate where
  customer_id : Nat
  quote_date : Int
  expiry_date : Int
  notes : Option String
  terms_and_conditions : Option String
  items : List QuoteItemCreate
deriving DecidableEq, Repr

/-- `schemas/payment.py` `PaymentCreate` (pydantic declares `amount > 0`;
the field stays `Int` because `record_payment` re-checks `amount <= 0`
itself and the claims quantify over that check). -/
structure PaymentCreate where
  invoice_id : Nat
  payment_date : Int
  amount : Int
  payment_method : String
  reference_number : Option String
  notes : Option String
deriving DecidableEq, Repr

/-- `schemas/payment.py` `PaymentGatewayCreate`. -/
structure PaymentGatewayCreate where
  invoice_id : Nat
  amount : Int
  gateway_name : String
  gateway_payment_id : String
  gateway_order_id : Option String
  gateway_response : Option String
deriving DecidableEq, Repr

/-- `core/exceptions.py`: `NotFoundException` / `ValidationException`; the
`internal` constructor stands for an unhandled ORM error such as
`scalar_one()` finding no row. -/
inductive Err
  | notFound (msg : String)
  | validation (msg : String)
  | internal (msg : String)
deriving DecidableEq, Repr

/-! ## Shared service helpers -/

/-- The invoice lookup shared by `record_payment` and `record_gateway_payment`
(`payment_service.py:128` / `:215`): id, organization and soft-delete filter. -/
def findInvoice (db : DB) (orgId invId : Nat) : Option Invoice :=
  db.invoices.find? fun i =>
    i.id == invId && i.organization_id == orgId && !i.is_deleted

/-- In-place ORM mutation of an invoice row, modelled as replacement by
primary key (positions, hence `created_at` order, are unchanged). -/
def replaceInvoice (l : List Invoice) (inv : Invoice) : List Invoice :=
  l.map fun i => if i.id == inv.id then inv else i

/-- In-place ORM mutation of a payment row, modelled as replacement by
primary key. -/
def replacePayment (l : List Payment) (p : Payment) : List Payment :=
  l.map fun q => if q.id == p.id then p else q

/-- In-place ORM mutation of a quote row, modelled as replacement by
primary key. -/
def replaceQuote (l : List Quote) (q : Quote) : List Quote :=
  l.map fun x => if x.id == q.id then q else x

/-- Result record of the `_calculate_line_item` helpers. -/
structure LineCalc where
  amount : Nat
  tax_amount : Nat
  total : Nat
deriving DecidableEq, Repr

namespace InvoiceService

/-- `invoice_service.py:128` `_calculate_line_item`: with quantity in
thousandths, rate in cents and tax_rate in hundredths of a percent,
`(quantity * rate).quantize("0.01")` is `roundHalfEvenDiv (q * r) 1000` cents
and `(amount * tax_rate / 100).quantize("0.01")` is
`roundHalfEvenDiv (amount * t) 10000` cents; the final
`(amount + tax_amount).quantize("0.01")` quantizes a value that is already an
exact multiple of `0.01`, so it is the identity on the cents sum. -/
def calculate_line_item (quantity rate tax_rate : Nat) : LineCalc :=
  let amount := roundHalfEvenDiv (quantity * rate) 1000
  let tax_amount := roundHalfEvenDiv (amount * tax_rate) 10000
  { amount, tax_amount, total := amount + tax_amount }

/-- `invoice_service.py:102` `_generate_invoice_number`: read the most
recently created invoice number for the organization (head of the
most-recent-first list; no soft-delete filter in the source query), parse and
increment, zero-pad to five digits. -/
def generate_invoice_number (db : DB) (orgId : Nat) : List Char :=
  let last := (db.invoices.find? fun i => i.organization_id == orgId).map
    (·.invoice_number)
  "INV-".toList ++ pad5 (nextNumberFrom last)

end InvoiceService

namespace QuoteService

/-- `quote_service.py:129` `_calculate_line_item` (`"same as invoice"`). -/
def calculate_line_item (quantity rate tax_rate : Nat) : LineCalc :=
  let amount := roundHalfEvenDiv (quantity * rate) 1000
  let tax_amount := roundHalfEvenDiv (amount * tax_rate) 10000
  { amount, tax_amount, total := amount + tax_amount }

/-- `quote_service.py:105` `_generate_quote_number`. -/
def generate_quote_number (db : DB) (orgId : Nat) : List Char :=
  let last := (db.quotes.find? fun q => q.organization_id == orgId).map
    (·.quote_number)
  "QT-".toList ++ pad5 (nextNumberFrom last)

end QuoteService

namespace PaymentService

/-- `payment_service.py:92` `_generate_payment_number`. -/
def generate_payment_number (db : DB) (orgId : Nat) : List Char :=
  let last := (db.payments.find? fun p => p.organization_id == orgId).map
    (·.payment_number)
  "PAY-".toList ++ pad5 (nextNumberFrom last)

end PaymentService

namespace PaymentService

/-- `payment_service.py:116` `record_payment`. All raises occur before the
`begin_nested` block, so an error result carries no state change; the success
result is the new payment row together with the session after the atomic
payment insert + invoice update. -/
def record_payment (db : DB) (orgId : Nat) (pd : PaymentCreate)
    (userId : Nat) : Except Err (Payment × DB) :=
  match findInvoice db orgId pd.invoice_id with
  | none => .error (.notFound "Invoice not found")
  | some invoice =>
    if invoice.status = .VOID then
      .error (.validation "Cannot record payment for void invoice")
    else if invoice.status = .DRAFT then
      .error (.validation
        "Cannot record payment for draft invoice. Please send the invoice first.")
    else if invoice.balance_due < pd.amount then
      .error (.validation "Payment amount exceeds balance due")
    else if pd.amount ≤ 0 then
      .error (.validation "Payment amount must be greater than zero")
    else
      let payment_number := generate_payment_number db orgId
      let payment : Payment :=
        { id := db.next_id
          organization_id := orgId
          customer_id := invoice.customer_id
          invoice_id := invoice.id
          payment_number
          payment_date := pd.payment_date
          amount := pd.amount
          payment_method := pd.payment_method
          reference_number := pd.reference_number
          notes := pd.notes
          gateway_name := none
          gateway_payment_id := none
          gateway_order_id := none
          gateway_response := none
          is_voided := false
          voided_at := none
          void_reason := none
          voided_by := none
          created_by := some userId }
      let amount_paid := invoice.amount_paid + pd.amount
      let balance_due := invoice.total - amount_paid
      let invoice' :=
        if balance_due = 0 then
          { invoice with
            amount_paid := amount_paid
            balance_due := balance_due
            status := .PAID
            paid_at := some db.now }
        else if 0 < amount_paid then
          { invoice with
            amount_paid := amount_paid
            balance_due := balance_due
            status := .PARTIALLY_PAID }
        else
          { invoice with
            amount_paid := amount_paid
            balance_due := balance_due }
      .ok (payment,
        { db with
          invoices := replaceInvoice db.invoices invoice'
          payments := payment :: db.payments
          next_id := db.next_id + 1 })

/-- `payment_service.py:202` `record_gateway_payment`: same lookup, only the
VOID status is rejected, then the idempotency check on
`(gateway_payment_id, organization_id)` short-circuits with the existing row
and an unchanged session. -/
def record_gateway_payment (db : DB) (orgId : Nat)
    (gd : PaymentGatewayCreate) : Except Err (Payment × DB) :=
  match findInvoice db orgId gd.invoice_id with
  | none => .error (.notFound "Invoice not found")
  | some invoice =>
    if invoice.status = .VOID then
      .error (.validation "Cannot record payment for void invoice")
    else
      match db.payments.find? fun p =>
          p.gateway_payment_id == some gd.gateway_payment_id &&
          p.organization_id == orgId with
      | some existing => .ok (existing, db)
      | none =>
        let payment_number := generate_payment_number db orgId
        let payment : Payment :=
          { id := db.next_id
            organization_id := orgId
            customer_id := invoice.customer_id
            invoice_id := invoice.id
            payment_number
            payment_date := db.today
            amount := gd.amount
            payment_method := "ONLINE"
            reference_number := some gd.gateway_payment_id
            notes := some ("Payment via " ++ gd.gateway_name)
            gateway_name := some gd.gateway_name
            gateway_payment_id := some gd.gateway_payment_id
            gateway_order_id := gd.gateway_order_id
            gateway_response := gd.gateway_response
            is_voided := false
            voided_at := none
            void_reason := none
            voided_by := none
            created_by := none }
        let amount_paid := invoice.amount_paid + gd.amount
        let balance_due := invoice.total - amount_paid
        let invoice' :=
          if balance_due = 0 then
            { invoice with
              amount_paid := amount_paid
              balance_due := balance_due
              status := .PAID
              paid_at := some db.now }
          else if 0 < amount_paid then
            { invoice with
            amount_paid := amount_paid
            balance_due := balance_due
            status := .PARTIALLY_PAID }
          else
            { invoice with
            amount_paid := amount_paid
            balance_due := balance_due }
        .ok (payment,
          { db with
            invoices := replaceInvoice db.invoices invoice'
            payments := payment :: db.payments
            next_id := db.next_id + 1 })

/-- `payment_service.py:287` `void_payment`: takes the payment row itself (the
route layer already resolved it); the linked invoice is looked up by id only —
no organization or soft-delete filter in the source query. -/
def void_payment (db : DB) (payment : Payment) (reason : String)
    (userId : Nat) : Except Err (Payment × DB) :=
  if payment.is_voided then
    .error (.validation "Payment is already voided")
  else
    match db.invoices.find? fun i => i.id == payment.invoice_id with
    | none => .error (.notFound "Linked invoice not found")
    | some invoice =>
      let payment' :=
        { payment with
          is_voided := true
          voided_at := some db.now
          void_reason := some reason
          voided_by := some userId }
      let amount_paid := invoice.amount_paid - payment.amount
      let balance_due := invoice.total - amount_paid
      let invoice' :=
        if balance_due = invoice.total then
          { invoice with
            amount_paid := amount_paid
            balance_due := balance_due
            status := if invoice.sent_at.isSome then .SENT else .DRAFT
            paid_at := none }
        else if 0 < balance_due then
          { invoice with
            amount_paid := amount_paid
            balance_due := balance_due
            status := .PARTIALLY_PAID
            paid_at := none }
        else
          { invoice with
            amount_paid := amount_paid
            balance_due := balance_due }
      .ok (payment',
        { db with
          invoices := replaceInvoice db.invoices invoice'
          payments := replacePayment db.payments payment' })

end PaymentService

/-- The per-line dict built inside the `create_invoice` / `create_quote`
loops (`invoice_service.py:214`, `quote_service.py:213`). -/
structure CalcLine where
  item_id : Option Nat
  description : String
  quantity : Nat
  rate : Nat
  amount : Nat
  tax_id : Option Nat
  tax_rate : Nat
  tax_amount : Nat
  total : Nat
  sort_order : Nat
deriving DecidableEq, Repr

/-- `InvoiceItem(invoice_id=invoice.id, **item_data)`. -/
def CalcLine.toInvoiceItem (c : CalcLine) (invId : Nat) : InvoiceItem :=
  { invoice_id := invId
    item_id := c.item_id
    description := c.description
    quantity := c.quantity
    rate := c.rate
    amount := c.amount
    tax_id := c.tax_id
    tax_rate := c.tax_rate
    tax_amount := c.tax_amount
    total := c.total
    sort_order := c.sort_order }

/-- `QuoteItem(quote_id=quote.id, **item_data)`. -/
def CalcLine.toQuoteItem (c : CalcLine) (qId : Nat) : QuoteItem :=
  { quote_id := qId
    item_id := c.item_id
    description := c.description
    quantity := c.quantity
    rate := c.rate
    amount := c.amount
    tax_id := c.tax_id
    tax_rate := c.tax_rate
    tax_amount := c.tax_amount
    total := c.total
    sort_order := c.sort_order }

namespace InvoiceService

/-- One iteration of the `create_invoice` line-item loop
(`invoice_service.py:173`): validate the optional catalog item, resolve the
optional tax rate (`0` when absent, NotFound when dangling), then compute the
amounts. -/
def process_invoice_item (db : DB) (orgId idx : Nat)
    (it : InvoiceItemCreate) : Except Err CalcLine :=
  match it.item_id with
  | some iid =>
    match db.items.find? fun x =>
        x.id == iid && x.organization_id == orgId && !x.is_deleted with
    | none => .error (.notFound "Item not found")
    | some _ => process_invoice_item_tax db orgId idx it
  | none => process_invoice_item_tax db orgId idx it
where
  /-- The tax-resolution tail of the loop body. -/
  process_invoice_item_tax (db : DB) (orgId idx : Nat)
      (it : InvoiceItemCreate) : Except Err CalcLine :=
    let resolved : Except Err Nat :=
      match it.tax_id with
      | none => .ok 0
      | some tid =>
        match db.taxes.find? fun t =>
            t.id == tid && t.organization_id == orgId && !t.is_deleted with
        | some tax => .ok tax.rate
        | none => .error (.notFound "Tax not found")
    match resolved with
    | .error e => .error e
    | .ok tax_rate =>
      let c := calculate_line_item it.quantity it.rate tax_rate
      .ok { item_id := it.item_id
            description := it.description
            quantity := it.quantity
            rate := it.rate
            amount := c.amount
            tax_id := it.tax_id
            tax_rate := tax_rate
            tax_amount := c.tax_amount
            total := c.total
            sort_order := idx }

/-- The whole `for idx, item_data in enumerate(...)` loop of
`create_invoice`, threading the running index. -/
def process_invoice_items (db : DB) (orgId : Nat) :
    Nat → List InvoiceItemCreate → Except Err (List CalcLine)
  | _, [] => .ok []
  | idx, it :: rest =>
    match process_invoice_item db orgId idx it with
    | .error e => .error e
    | .ok c =>
      match process_invoice_items db orgId (idx + 1) rest with
      | .error e => .error e
      | .ok cs => .ok (c :: cs)

/-- `invoice_service.py:141` `create_invoice`. -/
def create_invoice (db : DB) (orgId : Nat) (data : InvoiceCreate)
    (userId : Nat) : Except Err (Invoice × DB) :=
  match db.customers.find? fun c =>
      c.id == data.customer_id && c.organization_id == orgId &&
      !c.is_deleted with
  | none => .error (.notFound "Customer not found")
  | some customer =>
    if data.due_date < data.invoice_date then
      .error (.validation "Due date cannot be before invoice date")
    else
      match process_invoice_items db orgId 0 data.items with
      | .error e => .error e
      | .ok calcs =>
        let subtotal := (calcs.map (·.amount)).sum
        let tax_total := (calcs.map (·.tax_amount)).sum
        let total := subtotal + tax_total
        let invoice_number := generate_invoice_number db orgId
        let invoice : Invoice :=
          { id := db.next_id
            organization_id := orgId
            customer_id := customer.id
            invoice_number
            status := .DRAFT
            invoice_date := data.invoice_date
            due_date := data.due_date
            subtotal := (subtotal : Int)
            tax_total := (tax_total : Int)
            total := (total : Int)
            amount_paid := 0
            balance_due := (total : Int)
            currency_code := customer.currency_code
            payment_terms_days := customer.payment_terms_days
            notes := data.notes
            internal_notes := data.internal_notes
            terms_and_conditions := data.terms_and_conditions
            sent_at := none
            viewed_at := none
            paid_at := none
            voided_at := none
            void_reason := none
            is_deleted := false
            created_by := some userId }
        .ok (invoice,
          { db with
            invoices := invoice :: db.invoices
            invoice_items :=
              calcs.map (·.toInvoiceItem db.next_id) ++ db.invoice_items
            next_id := db.next_id + 1 })

/-- `invoice_service.py:280` `send_invoice`: takes the already-resolved
invoice row; SENT→SENT is a committed no-op. -/
def send_invoice (db : DB) (invoice : Invoice) : Except Err (Invoice × DB) :=
  if invoice.status ≠ .DRAFT ∧ invoice.status ≠ .SENT then
    .error (.validation "Cannot send invoice with this status")
  else if invoice.status = .DRAFT then
    let invoice' := { invoice with status := .SENT, sent_at := some db.now }
    .ok (invoice', { db with invoices := replaceInvoice db.invoices invoice' })
  else
    .ok (invoice, db)

/-- `invoice_service.py:298` `void_invoice`. -/
def void_invoice (db : DB) (invoice : Invoice) (reason : String) :
    Except Err (Invoice × DB) :=
  if invoice.status = .VOID then
    .error (.validation "Invoice is already void")
  else if invoice.status = .PAID then
    .error (.validation
      "Cannot void a paid invoice. Please void the payments first.")
  else
    let invoice' :=
      { invoice with
        status := .VOID
        voided_at := some db.now
        void_reason := some reason }
    .ok (invoice', { db with invoices := replaceInvoice db.invoices invoice' })

end InvoiceService

namespace QuoteService

/-- One iteration of the `create_quote` line-item loop
(`quote_service.py:173`), mirroring the invoice loop. -/
def process_quote_item (db : DB) (orgId idx : Nat)
    (it : QuoteItemCreate) : Except Err CalcLine :=
  match it.item_id with
  | some iid =>
    match db.items.find? fun x =>
        x.id == iid && x.organization_id == orgId && !x.is_deleted with
    | none => .error (.notFound "Item not found")
    | some _ => process_quote_item_tax db orgId idx it
  | none => process_quote_item_tax db orgId idx it
where
  /-- The tax-resolution tail of the loop body. -/
  process_quote_item_tax (db : DB) (orgId idx : Nat)
      (it : QuoteItemCreate) : Except Err CalcLine :=
    let resolved : Except Err Nat :=
      match it.tax_id with
      | none => .ok 0
      | some tid =>
        match db.taxes.find? fun t =>
            t.id == tid && t.organization_id == orgId && !t.is_deleted with
        | some tax => .ok tax.rate
        | none => .error (.notFound "Tax not found")
    match resolved with
    | .error e => .error e
    | .ok tax_rate =>
      let c := calculate_line_item it.quantity it.rate tax_rate
      .ok { item_id := it.item_id
            description := it.description
            quantity := it.quantity
            rate := it.rate
            amount := c.amount
            tax_id := it.tax_id
            tax_rate := tax_rate
            tax_amount := c.tax_amount
            total := c.total
            sort_order := idx }

/-- The `for idx, item_data in enumerate(...)` loop of `create_quote`. -/
def process_quote_items (db : DB) (orgId : Nat) :
    Nat → List QuoteItemCreate → Except Err (List CalcLine)
  | _, [] => .ok []
  | idx, it :: rest =>
    match process_quote_item db orgId idx it with
    | .error e => .error e
    | .ok c =>
      match process_quote_items db orgId (idx + 1) rest with
      | .error e => .error e
      | .ok cs => .ok (c :: cs)

/-- `quote_service.py:141` `create_quote`. -/
def create_quote (db : DB) (orgId : Nat) (data : QuoteCreate)
    (userId : Nat) : Except Err (Quote × DB) :=
  match db.customers.find? fun c =>
      c.id == data.customer_id && c.organization_id == orgId &&
      !c.is_deleted with
  | none => .error (.notFound "Customer not found")
  | some customer =>
    if data.expiry_date < data.quote_date then
      .error (.validation "Expiry date cannot be before quote date")
    else
      match process_quote_items db orgId 0 data.items with
      | .error e => .error e
      | .ok calcs =>
        let subtotal := (calcs.map (·.amount)).sum
        let tax_total := (calcs.map (·.tax_amount)).sum
        let total := subtotal + tax_total
        let quote_number := generate_quote_number db orgId
        let quote : Quote :=
          { id := db.next_id
            organization_id := orgId
            customer_id := customer.id
            quote_number
            status := .DRAFT
            quote_date := data.quote_date
            expiry_date := data.expiry_date
            subtotal := (subtotal : Int)
            tax_total := (tax_total : Int)
            total := (total : Int)
            currency_code := customer.currency_code
            notes := data.notes
            terms_and_conditions := data.terms_and_conditions
            sent_at := none
            accepted_at := none
            rejected_at := none
            converted_at := none
            converted_invoice_id := none
            is_deleted := false
            created_by := userId }
        .ok (quote,
          { db with
            quotes := quote :: db.quotes
            quote_items :=
              calcs.map (·.toQuoteItem db.next_id) ++ db.quote_items
            next_id := db.next_id + 1 })

/-- `quote_service.py:337` `convert_to_invoice`: only ACCEPTED and not yet
converted; the customer lookup uses `scalar_one()` (an unhandled ORM error —
`Err.internal` — when the row is missing); the new DRAFT invoice copies the
quote totals and every quote item verbatim, and the quote is flipped to
CONVERTED with the invoice link, all in one transaction. -/
def convert_to_invoice (db : DB) (quote : Quote) (userId : Nat) :
    Except Err (Invoice × DB) :=
  if quote.status ≠ .ACCEPTED then
    .error (.validation "Only accepted quotes can be converted to invoices")
  else if quote.converted_invoice_id.isSome then
    .error (.validation "Quote has already been converted to invoice")
  else
    match db.customers.find? fun c => c.id == quote.customer_id with
    | none => .error (.internal "scalar_one found no customer row")
    | some customer =>
      let invoice_number :=
        InvoiceService.generate_invoice_number db quote.organization_id
      let invoice : Invoice :=
        { id := db.next_id
          organization_id := quote.organization_id
          customer_id := quote.customer_id
          invoice_number
          status := .DRAFT
          invoice_date := db.today
          due_date := db.today
          subtotal := quote.subtotal
          tax_total := quote.tax_total
          total := quote.total
          amount_paid := 0
          balance_due := quote.total
          currency_code := quote.currency_code
          payment_terms_days := customer.payment_terms_days
          notes := quote.notes
          internal_notes := none
          terms_and_conditions := quote.terms_and_conditions
          sent_at := none
          viewed_at := none
          paid_at := none
          voided_at := none
          void_reason := none
          is_deleted := false
          created_by := some userId }
      let qItems := db.quote_items.filter fun qi => qi.quote_id == quote.id
      let newItems := qItems.map fun q =>
        ({ invoice_id := db.next_id
           item_id := q.item_id
           description := q.description
           quantity := q.quantity
           rate := q.rate
           amount := q.amount
           tax_id := q.tax_id
           tax_rate := q.tax_rate
           tax_amount := q.tax_amount
           total := q.total
           sort_order := q.sort_order } : InvoiceItem)
      let quote' :=
        { quote with
          status := .CONVERTED
          converted_at := some db.now
          converted_invoice_id := some db.next_id }
      .ok (invoice,
        { db with
          invoices := invoice :: db.invoices
          invoice_items := newItems ++ db.invoice_items
          quotes := replaceQuote db.quotes quote'
          next_id := db.next_id + 1 })

end QuoteService

/-! ## Inversion helpers -/

/-- Projection facts of a successful `create_invoice` run, extracted once for
reuse: the created invoice's computed fields and the new session contents. -/
theorem InvoiceService.create_invoice_ok
    (db : DB) (orgId : Nat) (data : InvoiceCreate) (userId : Nat)
    (inv : Invoice) (db' : DB)
    (h : InvoiceService.create_invoice db orgId data userId = .ok (inv, db')) :
    ∃ customer calcs,
      db.customers.find? (fun c =>
        c.id == data.customer_id && c.organization_id == orgId &&
        !c.is_deleted) = some customer ∧
      InvoiceService.process_invoice_items db orgId 0 data.items = .ok calcs ∧
      inv.status = .DRAFT ∧
      inv.amount_paid = 0 ∧
      inv.subtotal = ((calcs.map (·.amount) : List Nat).sum : Int) ∧
      inv.tax_total = ((calcs.map (·.tax_amount) : List Nat).sum : Int) ∧
      inv.total = inv.subtotal + inv.tax_total ∧
      inv.balance_due = inv.total ∧
      inv.currency_code = customer.currency_code ∧
      inv.payment_terms_days = customer.payment_terms_days ∧
      inv.invoice_number = InvoiceService.generate_invoice_number db orgId ∧
      inv.id = db.next_id ∧
      db'.invoices = inv :: db.invoices ∧
      db'.invoice_items =
        calcs.map (·.toInvoiceItem db.next_id) ++ db.invoice_items ∧
      db'.quotes = db.quotes ∧
      db'.payments = db.payments ∧
      db'.customers = db.customers ∧
      db'.next_id = db.next_id + 1 := by
  unfold InvoiceService.create_invoice at h
  split at h
  · exact absurd h (by simp)
  next customer hc =>
    split at h
    · exact absurd h (by simp)
    next hdate =>
      split at h
      · exact absurd h (by simp)
      next calcs hcalcs =>
        refine ⟨customer, calcs, hc, hcalcs, ?_⟩
        have h1 := (Except.ok.injEq _ _).mp h
        have hinv : inv = _ := (Prod.mk.injEq _ _ _ _).mp h1.symm |>.1
        have hdb : db' = _ := (Prod.mk.injEq _ _ _ _).mp h1.symm |>.2
        subst hinv; subst hdb
        refine ⟨rfl, rfl, rfl, rfl, ?_, rfl, rfl, rfl, rfl, rfl, rfl, rfl,
          rfl, rfl, rfl, rfl⟩
        push_cast
        ring

/-- Projection facts of a successful `create_quote` run. -/
theorem QuoteService.create_quote_ok
    (db : DB) (orgId : Nat) (data : QuoteCreate) (userId : Nat)
    (q : Quote) (db' : DB)
    (h : QuoteService.create_quote db orgId data userId = .ok (q, db')) :
    ∃ customer calcs,
      db.customers.find? (fun c =>
        c.id == data.customer_id && c.organization_id == orgId &&
        !c.is_deleted) = some customer ∧
      QuoteService.process_quote_items db orgId 0 data.items = .ok calcs ∧
      q.status = .DRAFT ∧
      q.subtotal = ((calcs.map (·.amount) : List Nat).sum : Int) ∧
      q.tax_total = ((calcs.map (·.tax_amount) : List Nat).sum : Int) ∧
      q.total = q.subtotal + q.tax_total ∧
      q.currency_code = customer.currency_code ∧
      q.id = db.next_id ∧
      db'.quotes = q :: db.quotes ∧
      db'.quote_items =
        calcs.map (·.toQuoteItem db.next_id) ++ db.quote_items ∧
      db'.invoices = db.invoices ∧
      db'.next_id = db.next_id + 1 := by
  unfold QuoteService.create_quote at h
  split at h
  · exact absurd h (by simp)
  next customer hc =>
    split at h
    · exact absurd h (by simp)
    next hdate =>
      split at h
      · exact absurd h (by simp)
      next calcs hcalcs =>
        refine ⟨customer, calcs, hc, hcalcs, ?_⟩
        have h1 := (Except.ok.injEq _ _).mp h
        have hq : q = _ := (Prod.mk.injEq _ _ _ _).mp h1.symm |>.1
        have hdb : db' = _ := (Prod.mk.injEq _ _ _ _).mp h1.symm |>.2
        subst hq; subst hdb
        refine ⟨rfl, rfl, rfl, ?_, rfl, rfl, rfl, rfl, rfl, rfl⟩
        push_cast
        ring

/-! ## Claim C3: line-item and document-level arithmetic -/

/-- C3: for every line item with quantity > 0, rate ≥ 0, tax_rate in [0,100]
(in scaled units: tax_rate ≤ 10000), the service computes
`amount = round(quantity * rate, 2)` and
`tax_amount = round(amount * tax_rate / 100, 2)` (half-even, the `quantize`
rounding of the source) and `total = amount + tax_amount`, identically for
quote and invoice line items; and each document built by `create_invoice` /
`create_quote` has `subtotal = Σ line.amount`, `tax_total = Σ line.tax_amount`
and `total = subtotal + tax_total`. All results are integers in cents, i.e.
exactly two fraction digits. -/
theorem C3_line_item_and_document_totals :
    (∀ q r t, 0 < q → t ≤ 10000 →
      (InvoiceService.calculate_line_item q r t).amount =
        roundHalfEvenDiv (q * r) 1000 ∧
      (InvoiceService.calculate_line_item q r t).tax_amount =
        roundHalfEvenDiv
          ((InvoiceService.calculate_line_item q r t).amount * t) 10000 ∧
      (InvoiceService.calculate_line_item q r t).total =
        (InvoiceService.calculate_line_item q r t).amount +
          (InvoiceService.calculate_line_item q r t).tax_amount ∧
      QuoteService.calculate_line_item q r t =
        InvoiceService.calculate_line_item q r t) ∧
    (∀ db orgId data userId inv db',
      InvoiceService.create_invoice db orgId data userId = .ok (inv, db') →
      ∃ lines, db'.invoice_items = lines ++ db.invoice_items ∧
        inv.subtotal = ((lines.map (·.amount) : List Nat).sum : Int) ∧
        inv.tax_total = ((lines.map (·.tax_amount) : List Nat).sum : Int) ∧
        inv.total = inv.subtotal + inv.tax_total) ∧
    (∀ db orgId data userId q db',
      QuoteService.create_quote db orgId data userId = .ok (q, db') →
      ∃ lines, db'.quote_items = lines ++ db.quote_items ∧
        q.subtotal = ((lines.map (·.amount) : List Nat).sum : Int) ∧
        q.tax_total = ((lines.map (·.tax_amount) : List Nat).sum : Int) ∧
        q.total = q.subtotal + q.tax_total) := by
  refine ⟨fun q r t _ _ => ⟨rfl, rfl, rfl, rfl⟩, ?_, ?_⟩
  · intro db orgId data userId inv db' h
    obtain ⟨customer, calcs, -, -, -, -, hsub, htax, htot, -, -, -, -, -, -,
      hitems, -, -, -⟩ :=
      InvoiceService.create_invoice_ok db orgId data userId inv db' h
    refine ⟨calcs.map (·.toInvoiceItem db.next_id), hitems, ?_, ?_, htot⟩
    · rw [hsub, List.map_map]; rfl
    · rw [htax, List.map_map]; rfl
  · intro db orgId data userId q db' h
    obtain ⟨customer, calcs, -, -, -, hsub, htax, htot, -, -, -, hitems, -, -⟩ :=
      QuoteService.create_quote_ok db orgId data userId q db' h
    refine ⟨calcs.map (·.toQuoteItem db.next_id), hitems, ?_, ?_, htot⟩
    · rw [hsub, List.map_map]; rfl
    · rw [htax, List.map_map]; rfl

/-- Witness for C3 at the spec's scenario line `(qty=2, rate=100, tax=18%)`:
2.000 × 100.00 = 200.00, tax 36.00, total 236.00. -/
theorem C3_line_item_witness :
    (InvoiceService.calculate_line_item 2000 10000 1800).amount =
      roundHalfEvenDiv (2000 * 10000) 1000 ∧
    (InvoiceService.calculate_line_item 2000 10000 1800).tax_amount =
      roundHalfEvenDiv
        ((InvoiceService.calculate_line_item 2000 10000 1800).amount * 1800)
        10000 ∧
    (InvoiceService.calculate_line_item 2000 10000 1800).total =
      (InvoiceService.calculate_line_item 2000 10000 1800).amount +
        (InvoiceService.calculate_line_item 2000 10000 1800).tax_amount ∧
    QuoteService.calculate_line_item 2000 10000 1800 =
      InvoiceService.calculate_line_item 2000 10000 1800 :=
  C3_line_item_and_document_totals.1 2000 10000 1800 (by decide) (by decide)

/-! ## Claim C7: create_invoice contract and scenario -/

/-- The customer of the spec scenario for C7 (`payment_terms_days=30`). -/
def c7_customer : Customer :=
  { id := 1
    organization_id := 1
    currency_code := "INR"
    payment_terms_days := 30
    is_deleted := false }

/-- An 18% tax ("GST 18"). -/
def c7_tax : Tax :=
  { id := 5, organization_id := 1, rate := 1800, is_deleted := false }

/-- A fresh organization database holding only the scenario customer and
tax. -/
def c7_db : DB :=
  { invoices := []
    invoice_items := []
    quotes := []
    quote_items := []
    payments := []
    customers := [c7_customer]
    items := []
    taxes := [c7_tax]
    next_id := 10
    now := 100
    today := 0 }

/-- The scenario request: line items `(qty=2, rate=100, tax=18%)` and
`(qty=1, rate=50, tax=0%)`. -/
def c7_data : InvoiceCreate :=
  { customer_id := 1
    invoice_date := 0
    due_date := 30
    notes := none
    internal_notes := none
    terms_and_conditions := none
    items :=
      [{ item_id := none
         description := "consulting"
         quantity := 2000
         rate := 10000
         tax_id := some 5 },
       { item_id := none
         description := "supplies"
         quantity := 1000
         rate := 5000
         tax_id := none }] }

/-- C7: every successfully created invoice starts as DRAFT with
`amount_paid = 0`, `balance_due = total`, and `currency_code` /
`payment_terms_days` copied from the customer the request resolved; and the
spec's two-line scenario yields subtotal 250.00, tax_total 36.00,
total 286.00, balance_due 286.00, status DRAFT. -/
theorem C7_create_invoice_contract :
    (∀ db orgId data userId inv db' customer,
      InvoiceService.create_invoice db orgId data userId = .ok (inv, db') →
      db.customers.find? (fun c =>
        c.id == data.customer_id && c.organization_id == orgId &&
        !c.is_deleted) = some customer →
      inv.status = .DRAFT ∧ inv.amount_paid = 0 ∧
      inv.balance_due = inv.total ∧
      inv.currency_code = customer.currency_code ∧
      inv.payment_terms_days = customer.payment_terms_days) ∧
    (InvoiceService.create_invoice c7_db 1 c7_data 7).toOption.map
      (fun r => (r.1.subtotal, r.1.tax_total, r.1.total, r.1.balance_due,
        r.1.status, r.1.payment_terms_days)) =
      some (25000, 3600, 28600, 28600, .DRAFT, 30) := by
  constructor
  · intro db orgId data userId inv db' customer h hfind
    obtain ⟨customer', calcs, hfind', -, hstat, hpaid, -, -, -, hbal, hcur,
      hterms, -, -, -, -, -, -, -, -⟩ :=
      InvoiceService.create_invoice_ok db orgId data userId inv db' h
    rw [hfind] at hfind'
    cases hfind'
    exact ⟨hstat, hpaid, hbal, hcur, hterms⟩
  · decide

/-- Witness for C7's general part at the scenario input. -/
theorem C7_create_invoice_witness :
    ∃ inv db',
      InvoiceService.create_invoice c7_db 1 c7_data 7 = .ok (inv, db') ∧
      inv.status = .DRAFT ∧ inv.amount_paid = 0 ∧
      inv.balance_due = inv.total ∧
      inv.currency_code = c7_customer.currency_code ∧
      inv.payment_terms_days = c7_customer.payment_terms_days := by
  rcases hrun : InvoiceService.create_invoice c7_db 1 c7_data 7 with e | ⟨inv, db'⟩
  · exfalso
    have hsome :
        (InvoiceService.create_invoice c7_db 1 c7_data 7).toOption.isSome := by
      decide
    rw [hrun] at hsome
    simp [Except.toOption] at hsome
  · exact ⟨inv, db', rfl,
      C7_create_invoice_contract.1 c7_db 1 c7_data 7 inv db' c7_customer hrun
        (by decide)⟩

/-! ## Claim C1: record_payment contract -/

/-- C1: `record_payment` fails with NotFound exactly when the invoice lookup
(id + organization + not soft-deleted) misses; it fails with a
ValidationFailure when the invoice is VOID or DRAFT, when the amount exceeds
`balance_due`, or when the amount is ≤ 0; every failure is an `Except.error`,
which in this embedding carries no state (all raises in the source precede
the transaction). Otherwise it creates the payment row, adds the amount to
`amount_paid`, recomputes `balance_due = total - amount_paid`, and sets
status PAID with `paid_at` when the new balance is zero, else
PARTIALLY_PAID (the latter needs the reachability fact
`0 ≤ amount_paid` before the call). -/
theorem C1_record_payment_contract (db : DB) (orgId : Nat)
    (pd : PaymentCreate) (userId : Nat) :
    (findInvoice db orgId pd.invoice_id = none →
      PaymentService.record_payment db orgId pd userId =
        .error (.notFound "Invoice not found")) ∧
    (∀ inv, findInvoice db orgId pd.invoice_id = some inv →
      ((inv.status = .VOID ∨ inv.status = .DRAFT ∨
        inv.balance_due < pd.amount ∨ pd.amount ≤ 0) →
        ∃ m, PaymentService.record_payment db orgId pd userId =
          .error (.validation m)) ∧
      (inv.status ≠ .VOID → inv.status ≠ .DRAFT →
       pd.amount ≤ inv.balance_due → 0 < pd.amount → 0 ≤ inv.amount_paid →
        ∃ p inv',
          PaymentService.record_payment db orgId pd userId =
            .ok (p,
              { db with
                invoices := replaceInvoice db.invoices inv'
                payments := p :: db.payments
                next_id := db.next_id + 1 }) ∧
          p.invoice_id = inv.id ∧ p.amount = pd.amount ∧
          p.is_voided = false ∧
          inv'.amount_paid = inv.amount_paid + pd.amount ∧
          inv'.balance_due = inv.total - inv'.amount_paid ∧
          (inv'.balance_due = 0 →
            inv'.status = .PAID ∧ inv'.paid_at = some db.now) ∧
          (inv'.balance_due ≠ 0 → inv'.status = .PARTIALLY_PAID))) := by
  constructor
  · intro h
    simp only [PaymentService.record_payment, h]
  · intro inv hfind
    constructor
    · intro hcase
      simp only [PaymentService.record_payment, hfind]
      split
      · exact ⟨_, rfl⟩
      · split
        · exact ⟨_, rfl⟩
        · split
          · exact ⟨_, rfl⟩
          · split
            · exact ⟨_, rfl⟩
            · next h1 h2 h3 h4 =>
              rcases hcase with h | h | h | h
              · exact absurd h h1
              · exact absurd h h2
              · exact absurd h h3
              · exact absurd h h4
    · intro h1 h2 h3 h4 h5
      simp only [PaymentService.record_payment, hfind]
      rw [if_neg h1, if_neg h2,
        if_neg (by omega : ¬ inv.balance_due < pd.amount),
        if_neg (by omega : ¬ pd.amount ≤ 0)]
      by_cases hbd : inv.total - (inv.amount_paid + pd.amount) = 0
      · rw [if_pos hbd]
        refine ⟨_, _, rfl, rfl, rfl, rfl, rfl, rfl, ?_, ?_⟩
        · exact fun _ => ⟨rfl, rfl⟩
        · intro hne; exact absurd hbd hne
      · have hap : 0 < inv.amount_paid + pd.amount := by omega
        rw [if_neg hbd, if_pos hap]
        refine ⟨_, _, rfl, rfl, rfl, rfl, rfl, rfl, ?_, ?_⟩
        · intro h0; exact absurd h0 hbd
        · intro _; rfl

/-- A SENT, fully unpaid invoice totalling 286.00, as produced by the C7
scenario after sending. -/
def w_invoice : Invoice :=
  { id := 3
    organization_id := 1
    customer_id := 1
    invoice_number := "INV-00001".toList
    status := .SENT
    invoice_date := 0
    due_date := 30
    subtotal := 25000
    tax_total := 3600
    total := 28600
    amount_paid := 0
    balance_due := 28600
    currency_code := "INR"
    payment_terms_days := 30
    notes := none
    internal_notes := none
    terms_and_conditions := none
    sent_at := some 50
    viewed_at := none
    paid_at := none
    voided_at := none
    void_reason := none
    is_deleted := false
    created_by := some 7 }

/-- Session holding the SENT invoice. -/
def w_db : DB :=
  { invoices := [w_invoice]
    invoice_items := []
    quotes := []
    quote_items := []
    payments := []
    customers := [c7_customer]
    items := []
    taxes := []
    next_id := 20
    now := 200
    today := 0 }

/-- Full payment of 286.00. -/
def w_pay_full : PaymentCreate :=
  { invoice_id := 3
    payment_date := 1
    amount := 28600
    payment_method := "CASH"
    reference_number := none
    notes := none }

/-- Overpayment attempt of 300.00 against balance 286.00. -/
def w_pay_over : PaymentCreate :=
  { invoice_id := 3
    payment_date := 1
    amount := 30000
    payment_method := "CASH"
    reference_number := none
    notes := none }

/-- Witness for C1: the 300.00-vs-286.00 overpayment is a ValidationFailure,
and the exact 286.00 payment succeeds, yielding `amount_paid = 286.00`,
`balance_due = 0`, status PAID with `paid_at` set. -/
theorem C1_record_payment_witness :
    (∃ m, PaymentService.record_payment w_db 1 w_pay_over 7 =
      .error (.validation m)) ∧
    (∃ p inv',
      PaymentService.record_payment w_db 1 w_pay_full 7 =
        .ok (p,
          { w_db with
            invoices := replaceInvoice w_db.invoices inv'
            payments := p :: w_db.payments
            next_id := w_db.next_id + 1 }) ∧
      p.invoice_id = w_invoice.id ∧ p.amount = w_pay_full.amount ∧
      p.is_voided = false ∧
      inv'.amount_paid = w_invoice.amount_paid + w_pay_full.amount ∧
      inv'.balance_due = w_invoice.total - inv'.amount_paid ∧
      (inv'.balance_due = 0 →
        inv'.status = .PAID ∧ inv'.paid_at = some w_db.now) ∧
      (inv'.balance_due ≠ 0 → inv'.status = .PARTIALLY_PAID)) :=
  ⟨((C1_record_payment_contract w_db 1 w_pay_over 7).2 w_invoice
      (by decide)).1 (by decide),
   ((C1_record_payment_contract w_db 1 w_pay_full 7).2 w_invoice
      (by decide)).2 (by decide) (by decide) (by decide) (by decide)
      (by decide)⟩

/-! ## Claim C10: record_gateway_payment acceptance and overpayment -/

/-- C10: `record_gateway_payment` errors exactly when the invoice lookup
misses (NotFound) or the invoice is VOID (ValidationFailure) — in particular
a DRAFT invoice is accepted and no amount-vs-balance check exists; and for
any reachable invoice (`balance_due = total - amount_paid`,
`0 ≤ amount_paid`) and any fresh gateway payment id, an amount strictly
greater than `balance_due` succeeds and leaves `balance_due` negative with
status PARTIALLY_PAID. -/
theorem C10_record_gateway_payment_behavior (db : DB) (orgId : Nat)
    (gd : PaymentGatewayCreate) :
    ((∃ e, PaymentService.record_gateway_payment db orgId gd = .error e) ↔
      (findInvoice db orgId gd.invoice_id = none ∨
        ∃ inv, findInvoice db orgId gd.invoice_id = some inv ∧
          inv.status = .VOID)) ∧
    (∀ inv, findInvoice db orgId gd.invoice_id = some inv →
      inv.status ≠ .VOID →
      db.payments.find? (fun p =>
        p.gateway_payment_id == some gd.gateway_payment_id &&
        p.organization_id == orgId) = none →
      inv.balance_due = inv.total - inv.amount_paid →
      0 ≤ inv.amount_paid →
      inv.balance_due < gd.amount →
      0 < gd.amount →
      ∃ p inv',
        PaymentService.record_gateway_payment db orgId gd =
          .ok (p,
            { db with
              invoices := replaceInvoice db.invoices inv'
              payments := p :: db.payments
              next_id := db.next_id + 1 }) ∧
        inv'.balance_due = inv.balance_due - gd.amount ∧
        inv'.balance_due < 0 ∧
        inv'.status = .PARTIALLY_PAID) := by
  constructor
  · constructor
    · rintro ⟨e, he⟩
      cases hfind : findInvoice db orgId gd.invoice_id with
      | none => exact Or.inl rfl
      | some inv =>
        by_cases hv : inv.status = .VOID
        · exact Or.inr ⟨inv, rfl, hv⟩
        · exfalso
          simp only [PaymentService.record_gateway_payment, hfind] at he
          rw [if_neg hv] at he
          cases hdup : db.payments.find? (fun p =>
              p.gateway_payment_id == some gd.gateway_payment_id &&
              p.organization_id == orgId) with
          | some ex => rw [hdup] at he; simp at he
          | none => rw [hdup] at he; simp at he
    · rintro (hnone | ⟨inv, hfind, hv⟩)
      · refine ⟨.notFound "Invoice not found", ?_⟩
        simp only [PaymentService.record_gateway_payment, hnone]
      · refine ⟨.validation "Cannot record payment for void invoice", ?_⟩
        simp only [PaymentService.record_gateway_payment, hfind]
        rw [if_pos hv]
  · intro inv hfind hv hdup hbal hap hover hpos
    simp only [PaymentService.record_gateway_payment, hfind]
    rw [if_neg hv]
    simp only [hdup]
    have hbd : ¬ inv.total - (inv.amount_paid + gd.amount) = 0 := by omega
    have hap' : 0 < inv.amount_paid + gd.amount := by omega
    rw [if_neg hbd, if_pos hap']
    refine ⟨_, _, rfl, ?_, ?_, rfl⟩
    · show inv.total - (inv.amount_paid + gd.amount) =
        inv.balance_due - gd.amount
      omega
    · show inv.total - (inv.amount_paid + gd.amount) < 0
      omega

/-- A gateway overpayment of 300.00 against the 286.00 SENT invoice. -/
def w_gw : PaymentGatewayCreate :=
  { invoice_id := 3
    amount := 30000
    gateway_name := "razorpay"
    gateway_payment_id := "pay_ABC123"
    gateway_order_id := none
    gateway_response := none }

/-- Witness for C10: the 300.00 gateway payment on the 286.00 invoice
succeeds and drives the balance to -14.00 with status PARTIALLY_PAID. -/
theorem C10_record_gateway_payment_witness :
    ∃ p inv',
      PaymentService.record_gateway_payment w_db 1 w_gw =
        .ok (p,
          { w_db with
            invoices := replaceInvoice w_db.invoices inv'
            payments := p :: w_db.payments
            next_id := w_db.next_id + 1 }) ∧
      inv'.balance_due = w_invoice.balance_due - w_gw.amount ∧
      inv'.balance_due < 0 ∧
      inv'.status = .PARTIALLY_PAID :=
  (C10_record_gateway_payment_behavior w_db 1 w_gw).2 w_invoice (by decide)
    (by decide) (by decide) (by decide) (by decide) (by decide) (by decide)

/-! ## Claim C6: void_invoice contract -/

/-- C6: `void_invoice` fails (always with a ValidationFailure) exactly when
the invoice is already VOID or is PAID; any other status is voided with
`voided_at` and the caller's `void_reason` (non-empty under the schema's
`min_length=1` constraint); and on a reachable PAID invoice, voiding its
payment first and then voiding the invoice succeeds. -/
theorem C6_void_invoice_contract (db : DB) (inv : Invoice) (reason : String) :
    ((∃ e, InvoiceService.void_invoice db inv reason = .error e) ↔
      (inv.status = .VOID ∨ inv.status = .PAID)) ∧
    (∀ e, InvoiceService.void_invoice db inv reason = .error e →
      ∃ m, e = .validation m) ∧
    (inv.status ≠ .VOID → inv.status ≠ .PAID →
      InvoiceService.void_invoice db inv reason =
        .ok
          ({ inv with
             status := .VOID
             voided_at := some db.now
             void_reason := some reason },
           { db with
             invoices := replaceInvoice db.invoices
               { inv with
                 status := .VOID
                 voided_at := some db.now
                 void_reason := some reason } })) ∧
    (inv.status ≠ .VOID → inv.status ≠ .PAID → 1 ≤ reason.length →
      ∃ inv' db', InvoiceService.void_invoice db inv reason = .ok (inv', db') ∧
        ∃ r, inv'.void_reason = some r ∧ r ≠ "") ∧
    (∀ p u vreason,
      inv.status = .PAID → inv.balance_due = 0 →
      inv.balance_due = inv.total - inv.amount_paid →
      p.is_voided = false → 0 < p.amount → p.amount ≤ inv.total →
      db.invoices.find? (fun i => i.id == p.invoice_id) = some inv →
      ∃ p' db₁ inv₁,
        PaymentService.void_payment db p vreason u = .ok (p', db₁) ∧
        db₁.invoices = replaceInvoice db.invoices inv₁ ∧
        (inv₁.status = .SENT ∨ inv₁.status = .DRAFT ∨
          inv₁.status = .PARTIALLY_PAID) ∧
        ∃ inv₂ db₂,
          InvoiceService.void_invoice db₁ inv₁ reason = .ok (inv₂, db₂) ∧
          inv₂.status = .VOID) := by
  refine ⟨⟨?_, ?_⟩, ?_, ?_, ?_, ?_⟩
  · rintro ⟨e, he⟩
    by_cases h1 : inv.status = .VOID
    · exact Or.inl h1
    · by_cases h2 : inv.status = .PAID
      · exact Or.inr h2
      · exfalso
        simp only [InvoiceService.void_invoice] at he
        rw [if_neg h1, if_neg h2] at he
        simp at he
  · rintro (h | h)
    · exact ⟨_, by simp only [InvoiceService.void_invoice]; rw [if_pos h]⟩
    · refine ⟨.validation
        "Cannot void a paid invoice. Please void the payments first.", ?_⟩
      simp only [InvoiceService.void_invoice]
      by_cases h1 : inv.status = .VOID
      · rw [if_pos h1]; rw [h1] at h; exact absurd h (by simp)
      · rw [if_neg h1, if_pos h]
  · intro e he
    simp only [InvoiceService.void_invoice] at he
    split at he
    · exact ⟨_, (Except.error.injEq _ _).mp he.symm⟩
    · split at he
      · exact ⟨_, (Except.error.injEq _ _).mp he.symm⟩
      · simp at he
  · intro h1 h2
    simp only [InvoiceService.void_invoice]
    rw [if_neg h1, if_neg h2]
  · intro h1 h2 hr
    refine
      ⟨{ inv with
         status := .VOID
         voided_at := some db.now
         void_reason := some reason },
       { db with
         invoices := replaceInvoice db.invoices
           { inv with
             status := .VOID
             voided_at := some db.now
             void_reason := some reason } }, ?_, reason, rfl, ?_⟩
    · simp only [InvoiceService.void_invoice]
      rw [if_neg h1, if_neg h2]
    · intro hemp
      rw [hemp] at hr
      exact absurd hr (by decide)
  · intro p u vreason hpaid hbal0 hbal hnv hpos hle hfind
    simp only [PaymentService.void_payment, hnv, Bool.false_eq_true,
      if_false, hfind]
    by_cases hpt : inv.total - (inv.amount_paid - p.amount) = inv.total
    · rw [if_pos hpt]
      by_cases hs : inv.sent_at.isSome
      · rw [if_pos hs]
        refine ⟨_, _, _, rfl, rfl, Or.inl rfl, ?_⟩
        simp only [InvoiceService.void_invoice]
        rw [if_neg (by decide), if_neg (by decide)]
        exact ⟨_, _, rfl, rfl⟩
      · rw [if_neg hs]
        refine ⟨_, _, _, rfl, rfl, Or.inr (Or.inl rfl), ?_⟩
        simp only [InvoiceService.void_invoice]
        rw [if_neg (by decide), if_neg (by decide)]
        exact ⟨_, _, rfl, rfl⟩
    · rw [if_neg hpt]
      have hgt : 0 < inv.total - (inv.amount_paid - p.amount) := by omega
      rw [if_pos hgt]
      refine ⟨_, _, _, rfl, rfl, Or.inr (Or.inr rfl), ?_⟩
      simp only [InvoiceService.void_invoice]
      rw [if_neg (by decide), if_neg (by decide)]
      exact ⟨_, _, rfl, rfl⟩

/-- The 286.00 invoice after full payment: PAID with zero balance. -/
def w_paid : Invoice :=
  { w_invoice with
    status := .PAID
    amount_paid := 28600
    balance_due := 0
    paid_at := some 60 }

/-- The full 286.00 payment row behind `w_paid`. -/
def w_payment : Payment :=
  { id := 21
    organization_id := 1
    customer_id := 1
    invoice_id := 3
    payment_number := "PAY-00001".toList
    payment_date := 1
    amount := 28600
    payment_method := "CASH"
    reference_number := none
    notes := none
    gateway_name := none
    gateway_payment_id := none
    gateway_order_id := none
    gateway_response := none
    is_voided := false
    voided_at := none
    void_reason := none
    voided_by := none
    created_by := some 7 }

/-- Session holding the PAID invoice and its payment. -/
def w_paid_db : DB :=
  { w_db with invoices := [w_paid], payments := [w_payment] }

/-- Witness for C6: voiding the PAID invoice directly fails; voiding the
payment first and then the invoice succeeds. -/
theorem C6_void_invoice_witness :
    (∃ e, InvoiceService.void_invoice w_paid_db w_paid "duplicate" =
      .error e) ∧
    (∃ p' db₁ inv₁,
      PaymentService.void_payment w_paid_db w_payment "entered in error" 7 =
        .ok (p', db₁) ∧
      db₁.invoices = replaceInvoice w_paid_db.invoices inv₁ ∧
      (inv₁.status = .SENT ∨ inv₁.status = .DRAFT ∨
        inv₁.status = .PARTIALLY_PAID) ∧
      ∃ inv₂ db₂,
        InvoiceService.void_invoice db₁ inv₁ "duplicate" = .ok (inv₂, db₂) ∧
        inv₂.status = .VOID) :=
  ⟨(C6_void_invoice_contract w_paid_db w_paid "duplicate").1.mpr
      (Or.inr (by decide)),
   (C6_void_invoice_contract w_paid_db w_paid "duplicate").2.2.2.2
      w_payment 7 "entered in error" (by decide) (by decide) (by decide)
      (by decide) (by decide) (by decide) (by decide)⟩

/-! ## Claim C2: balance_due = total - amount_paid across all operations -/

/-- The reconciliation invariant of the spec:
`balance_due = total - amount_paid`. -/
def balOK (i : Invoice) : Prop := i.balance_due = i.total - i.amount_paid

instance (i : Invoice) : Decidable (balOK i) := by
  unfold balOK; infer_instance

/-- Replacing one row by an invariant-satisfying row preserves the invariant
across the table. -/
theorem balOK_replaceInvoice (l : List Invoice) (inv' : Invoice)
    (h : ∀ i ∈ l, balOK i) (h' : balOK inv') :
    ∀ i ∈ replaceInvoice l inv', balOK i := by
  intro i hi
  rcases List.mem_map.mp hi with ⟨x, hx, rfl⟩
  by_cases hid : x.id == inv'.id
  · rw [if_pos hid]; exact h'
  · rw [if_neg hid]; exact h x hx

/-- C2: every engine operation that creates or mutates an invoice leaves
`balance_due = total - amount_paid` holding for every invoice row: the
creation paths establish it, the payment paths recompute it, and
send/void/idempotent paths do not touch the money fields. -/
theorem C2_balance_equation_preserved :
    (∀ db orgId data userId inv db',
      (∀ i ∈ db.invoices, balOK i) →
      InvoiceService.create_invoice db orgId data userId = .ok (inv, db') →
      balOK inv ∧ ∀ i ∈ db'.invoices, balOK i) ∧
    (∀ db q userId inv db',
      (∀ i ∈ db.invoices, balOK i) →
      QuoteService.convert_to_invoice db q userId = .ok (inv, db') →
      balOK inv ∧ ∀ i ∈ db'.invoices, balOK i) ∧
    (∀ db invc inv' db',
      balOK invc → (∀ i ∈ db.invoices, balOK i) →
      InvoiceService.send_invoice db invc = .ok (inv', db') →
      balOK inv' ∧ ∀ i ∈ db'.invoices, balOK i) ∧
    (∀ db invc reason inv' db',
      balOK invc → (∀ i ∈ db.invoices, balOK i) →
      InvoiceService.void_invoice db invc reason = .ok (inv', db') →
      balOK inv' ∧ ∀ i ∈ db'.invoices, balOK i) ∧
    (∀ db orgId pd userId p db',
      (∀ i ∈ db.invoices, balOK i) →
      PaymentService.record_payment db orgId pd userId = .ok (p, db') →
      ∀ i ∈ db'.invoices, balOK i) ∧
    (∀ db orgId gd p db',
      (∀ i ∈ db.invoices, balOK i) →
      PaymentService.record_gateway_payment db orgId gd = .ok (p, db') →
      ∀ i ∈ db'.invoices, balOK i) ∧
    (∀ db pay reason userId p db',
      (∀ i ∈ db.invoices, balOK i) →
      PaymentService.void_payment db pay reason userId = .ok (p, db') →
      ∀ i ∈ db'.invoices, balOK i) := by
  refine ⟨?_, ?_, ?_, ?_, ?_, ?_, ?_⟩
  · intro db orgId data userId inv db' hpre h
    obtain ⟨c, calcs, -, -, -, hpaid, -, -, htot, hbal, -, -, -, -, hinvs,
      -, -, -, -⟩ :=
      InvoiceService.create_invoice_ok db orgId data userId inv db' h
    have hb : balOK inv := by unfold balOK; rw [hbal, hpaid]; ring
    refine ⟨hb, ?_⟩
    rw [hinvs]
    intro i hi
    rcases List.mem_cons.mp hi with rfl | hi
    · exact hb
    · exact hpre i hi
  · intro db q userId inv db' hpre h
    unfold QuoteService.convert_to_invoice at h
    split at h
    · simp at h
    · split at h
      · simp at h
      · split at h
        · simp at h
        · next customer hc =>
          have h1 := (Except.ok.injEq _ _).mp h
          have hinv : inv = _ := ((Prod.mk.injEq _ _ _ _).mp h1.symm).1
          have hdb : db' = _ := ((Prod.mk.injEq _ _ _ _).mp h1.symm).2
          subst hinv; subst hdb
          refine ⟨?_, ?_⟩
          · unfold balOK
            show q.total = q.total - 0
            ring
          · intro i hi
            rcases List.mem_cons.mp hi with rfl | hi
            · unfold balOK
              show q.total = q.total - 0
              ring
            · exact hpre i hi
  · intro db invc inv' db' hone hpre h
    unfold InvoiceService.send_invoice at h
    split at h
    · simp at h
    · split at h
      · have h1 := (Except.ok.injEq _ _).mp h
        have hinv : inv' = _ := ((Prod.mk.injEq _ _ _ _).mp h1.symm).1
        have hdb : db' = _ := ((Prod.mk.injEq _ _ _ _).mp h1.symm).2
        subst hinv; subst hdb
        exact ⟨hone, balOK_replaceInvoice _ _ hpre hone⟩
      · have h1 := (Except.ok.injEq _ _).mp h
        have hinv : inv' = _ := ((Prod.mk.injEq _ _ _ _).mp h1.symm).1
        have hdb : db' = _ := ((Prod.mk.injEq _ _ _ _).mp h1.symm).2
        subst hinv; subst hdb
        exact ⟨hone, hpre⟩
  · intro db invc reason inv' db' hone hpre h
    unfold InvoiceService.void_invoice at h
    split at h
    · simp at h
    · split at h
      · simp at h
      · have h1 := (Except.ok.injEq _ _).mp h
        have hinv : inv' = _ := ((Prod.mk.injEq _ _ _ _).mp h1.symm).1
        have hdb : db' = _ := ((Prod.mk.injEq _ _ _ _).mp h1.symm).2
        subst hinv; subst hdb
        exact ⟨hone, balOK_replaceInvoice _ _ hpre hone⟩
  · intro db orgId pd userId p db' hpre h
    unfold PaymentService.record_payment at h
    split at h
    · simp at h
    · split at h
      · simp at h
      · split at h
        · simp at h
        · split at h
          · simp at h
          · split at h
            · simp at h
            · have h1 := (Except.ok.injEq _ _).mp h
              have hdb : db' = _ := ((Prod.mk.injEq _ _ _ _).mp h1.symm).2
              subst hdb
              refine balOK_replaceInvoice _ _ hpre ?_
              split
              · rfl
              · split
                · rfl
                · rfl
  · intro db orgId gd p db' hpre h
    unfold PaymentService.record_gateway_payment at h
    split at h
    · simp at h
    · split at h
      · simp at h
      · split at h
        · have h1 := (Except.ok.injEq _ _).mp h
          have hdb : db' = _ := ((Prod.mk.injEq _ _ _ _).mp h1.symm).2
          subst hdb
          exact hpre
        · have h1 := (Except.ok.injEq _ _).mp h
          have hdb : db' = _ := ((Prod.mk.injEq _ _ _ _).mp h1.symm).2
          subst hdb
          refine balOK_replaceInvoice _ _ hpre ?_
          split
          · rfl
          · split
            · rfl
            · rfl
  · intro db pay reason userId p db' hpre h
    unfold PaymentService.void_payment at h
    split at h
    · simp at h
    · split at h
      · simp at h
      · have h1 := (Except.ok.injEq _ _).mp h
        have hdb : db' = _ := ((Prod.mk.injEq _ _ _ _).mp h1.symm).2
        subst hdb
        refine balOK_replaceInvoice _ _ hpre ?_
        split
        · rfl
        · split
          · rfl
          · rfl

/-- Witness for C2: recording the full 286.00 payment keeps every invoice row
satisfying `balance_due = total - amount_paid`. -/
theorem C2_balance_equation_witness :
    ∃ p db',
      PaymentService.record_payment w_db 1 w_pay_full 7 = .ok (p, db') ∧
      ∀ i ∈ db'.invoices, balOK i := by
  rcases hrun : PaymentService.record_payment w_db 1 w_pay_full 7
    with e | ⟨p, db'⟩
  · exfalso
    have hsome :
        (PaymentService.record_payment w_db 1 w_pay_full 7).toOption.isSome :=
      by decide
    rw [hrun] at hsome
    simp [Except.toOption] at hsome
  · exact ⟨p, db', rfl,
      C2_balance_equation_preserved.2.2.2.2.1 w_db 1 w_pay_full 7 p db'
        (by decide) hrun⟩

/-! ## Lookup-after-update lemmas -/

/-- If a `find?` with predicate `prd` located row `a` in a table with unique
ids, then after replacing `a` by a row `a'` with the same id that still
satisfies `prd`, the same `find?` locates `a'`. -/
theorem find?_replaceInvoice_of_find? (prd : Invoice → Bool)
    (l : List Invoice) (a a' : Invoice)
    (hfind : l.find? prd = some a)
    (huniq : ∀ x ∈ l, x.id = a.id → x = a)
    (ha' : prd a' = true) (hk : a'.id = a.id) :
    (replaceInvoice l a').find? prd = some a' := by
  induction l with
  | nil => simp at hfind
  | cons x xs ih =>
    simp only [replaceInvoice, List.map_cons]
    by_cases hpx : prd x
    · rw [List.find?_cons_of_pos _ hpx] at hfind
      have hax : x = a := Option.some.inj hfind
      subst hax
      rw [if_pos (beq_iff_eq.mpr (hk ▸ rfl))]
      exact List.find?_cons_of_pos _ ha'
    · rw [List.find?_cons_of_neg _ hpx] at hfind
      by_cases hid : x.id = a.id
      · exfalso
        have hxa : x = a := huniq x (List.mem_cons_self _ _) hid
        have hpa : prd a = true := List.find?_some hfind
        rw [← hxa] at hpa
        exact absurd hpa hpx
      · have hne : (x.id == a'.id) = false := by
          rw [hk]; exact beq_eq_false_iff_ne.mpr hid
        rw [if_neg (by simp [hne])]
        rw [List.find?_cons_of_neg _ hpx]
        exact ih hfind fun y hy hyid => huniq y (List.mem_cons_of_mem _ hy) hyid

/-- Id-only variant: after replacing row `a` by `a'` with the same id (unique
ids), looking the id up finds `a'`. -/
theorem find?_id_replaceInvoice (l : List Invoice) (a a' : Invoice)
    (ha : a ∈ l)
    (huniq : ∀ x ∈ l, x.id = a.id → x = a)
    (hk : a'.id = a.id) :
    (replaceInvoice l a').find? (fun i => i.id == a.id) = some a' := by
  induction l with
  | nil => simp at ha
  | cons x xs ih =>
    simp only [replaceInvoice, List.map_cons]
    by_cases hid : x.id = a.id
    · rw [if_pos (beq_iff_eq.mpr (hk ▸ hid))]
      exact List.find?_cons_of_pos _ (beq_iff_eq.mpr hk)
    · have hne : (x.id == a'.id) = false := by
        rw [hk]; exact beq_eq_false_iff_ne.mpr hid
      rw [if_neg (by simp [hne])]
      rw [List.find?_cons_of_neg _ (by simp [hid])]
      apply ih
      · rcases List.mem_cons.mp ha with h | h
        · exact absurd (h ▸ rfl : x.id = a.id) hid
        · exact h
      · exact fun y hy hyid => huniq y (List.mem_cons_of_mem _ hy) hyid

/-! ## Claim C9: gateway payment idempotency -/

/-- A gateway recording call on a session where the invoice resolves, is not
VOID, and the gateway payment id already exists returns the existing row and
leaves the session untouched (`payment_service.py:243`). -/
theorem gateway_second_call (db₂ : DB) (orgId : Nat)
    (gd : PaymentGatewayCreate) (inv₂ : Invoice) (pay : Payment)
    (hfind : findInvoice db₂ orgId gd.invoice_id = some inv₂)
    (hv : inv₂.status ≠ .VOID)
    (hdup : db₂.payments.find? (fun p =>
      p.gateway_payment_id == some gd.gateway_payment_id &&
      p.organization_id == orgId) = some pay) :
    PaymentService.record_gateway_payment db₂ orgId gd = .ok (pay, db₂) := by
  simp only [PaymentService.record_gateway_payment, hfind, hdup]
  rw [if_neg hv]

/-- After a first gateway recording replaced the invoice row by an update
with the same id/organization/soft-delete flag and prepended the new payment
row, a second call with the same gateway data short-circuits on the
idempotency check and returns that payment with the session unchanged. -/
theorem gateway_second_call_after_update (db : DB) (orgId : Nat)
    (gd : PaymentGatewayCreate) (invoice inv' : Invoice) (pay : Payment)
    (db₂ : DB)
    (hinvs : db₂.invoices = replaceInvoice db.invoices inv')
    (hpays : db₂.payments = pay :: db.payments)
    (hfind : db.invoices.find? (fun i =>
      i.id == gd.invoice_id && i.organization_id == orgId &&
      !i.is_deleted) = some invoice)
    (huniq' : ∀ x ∈ db.invoices, x.id = invoice.id → x = invoice)
    (hid : inv'.id = invoice.id)
    (horg : inv'.organization_id = invoice.organization_id)
    (hdel : inv'.is_deleted = invoice.is_deleted)
    (hv : inv'.status ≠ .VOID)
    (hgw : pay.gateway_payment_id = some gd.gateway_payment_id)
    (hpo : pay.organization_id = orgId) :
    PaymentService.record_gateway_payment db₂ orgId gd = .ok (pay, db₂) := by
  have hfind₂ : findInvoice db₂ orgId gd.invoice_id = some inv' := by
    show db₂.invoices.find? (fun i =>
      i.id == gd.invoice_id && i.organization_id == orgId &&
      !i.is_deleted) = some inv'
    rw [hinvs]
    apply find?_replaceInvoice_of_find?
    · exact hfind
    · exact huniq'
    · show (inv'.id == gd.invoice_id && inv'.organization_id == orgId &&
        !inv'.is_deleted) = true
      rw [hid, horg, hdel]
      have hbase := List.find?_some hfind
      exact hbase
    · exact hid
  have hdup₂ : db₂.payments.find? (fun p =>
      p.gateway_payment_id == some gd.gateway_payment_id &&
      p.organization_id == orgId) = some pay := by
    rw [hpays]
    exact List.find?_cons_of_pos _ (by simp [hgw, hpo])
  exact gateway_second_call db₂ orgId gd inv' pay hfind₂ hv hdup₂

/-- C9: calling `record_gateway_payment` again with the same
`gateway_payment_id` in the same organization (on a table with unique invoice
ids) returns the very payment of the first call and leaves the session —
in particular the invoice's `amount_paid`, `balance_due` and `status` —
unchanged: the balance effect of one external payment id is applied at most
once. -/
theorem C9_record_gateway_payment_idempotent (db : DB) (orgId : Nat)
    (gd : PaymentGatewayCreate) (p : Payment) (db₁ : DB)
    (huniq : ∀ x ∈ db.invoices, ∀ y ∈ db.invoices, x.id = y.id → x = y)
    (h : PaymentService.record_gateway_payment db orgId gd = .ok (p, db₁)) :
    PaymentService.record_gateway_payment db₁ orgId gd = .ok (p, db₁) := by
  unfold PaymentService.record_gateway_payment at h
  split at h
  · simp at h
  next invoice hfind =>
    split at h
    · simp at h
    next hv =>
      have hmem : invoice ∈ db.invoices :=
        List.mem_of_find?_eq_some hfind
      have huniq' : ∀ x ∈ db.invoices, x.id = invoice.id → x = invoice :=
        fun x hx hxe => huniq x hx invoice hmem hxe
      split at h
      · -- duplicate already present: the first call changed nothing
        have h1 := (Except.ok.injEq _ _).mp h
        have hp := ((Prod.mk.injEq _ _ _ _).mp h1).1
        have hdb := ((Prod.mk.injEq _ _ _ _).mp h1).2
        subst hp; subst hdb
        next existing hdup => exact gateway_second_call _ _ _ _ _ hfind hv hdup
      next hdup =>
        -- first call inserted a new payment and updated the invoice
        have h1 := (Except.ok.injEq _ _).mp h
        have hp := ((Prod.mk.injEq _ _ _ _).mp h1).1
        have hdb := ((Prod.mk.injEq _ _ _ _).mp h1).2
        subst hp; subst hdb
        apply gateway_second_call_after_update db orgId gd invoice
        · rfl
        · rfl
        · exact hfind
        · exact huniq'
        · split
          · rfl
          · split <;> rfl
        · split
          · rfl
          · split <;> rfl
        · split
          · rfl
          · split <;> rfl
        · split
          · exact fun hcon => nomatch hcon
          · split
            · exact fun hcon => nomatch hcon
            · exact hv
        · rfl
        · rfl

/-- Witness for C9: recording the gateway payment `pay_ABC123` twice on the
same session applies the balance effect once — the second call returns the
first call's payment and the unchanged session. -/
theorem C9_record_gateway_payment_witness :
    ∃ p db₁,
      PaymentService.record_gateway_payment w_db 1 w_gw = .ok (p, db₁) ∧
      PaymentService.record_gateway_payment db₁ 1 w_gw = .ok (p, db₁) := by
  rcases hrun : PaymentService.record_gateway_payment w_db 1 w_gw
    with e | ⟨p, db₁⟩
  · exfalso
    have hsome :
        (PaymentService.record_gateway_payment w_db 1 w_gw).toOption.isSome :=
      by decide
    rw [hrun] at hsome
    simp [Except.toOption] at hsome
  · exact ⟨p, db₁, rfl,
      C9_record_gateway_payment_idempotent w_db 1 w_gw p db₁ (by decide) hrun⟩

/-! ## Claim C4: payment record + void round trip -/

/-- Success shape of `record_payment`: under the four guards, the call
returns the new payment row and the session with the invoice replaced by its
recomputed update. -/
theorem record_payment_success (db : DB) (orgId : Nat) (pd : PaymentCreate)
    (userId : Nat) (inv : Invoice)
    (hfind : findInvoice db orgId pd.invoice_id = some inv)
    (h1 : inv.status ≠ .VOID) (h2 : inv.status ≠ .DRAFT)
    (h3 : pd.amount ≤ inv.balance_due) (h4 : 0 < pd.amount) :
    ∃ p inv',
      PaymentService.record_payment db orgId pd userId =
        .ok (p,
          { db with
            invoices := replaceInvoice db.invoices inv'
            payments := p :: db.payments
            next_id := db.next_id + 1 }) ∧
      p.invoice_id = inv.id ∧ p.amount = pd.amount ∧ p.is_voided = false ∧
      inv'.id = inv.id ∧ inv'.total = inv.total ∧
      inv'.sent_at = inv.sent_at ∧
      inv'.amount_paid = inv.amount_paid + pd.amount ∧
      inv'.balance_due = inv.total - (inv.amount_paid + pd.amount) ∧
      (inv.total - (inv.amount_paid + pd.amount) = 0 →
        inv'.status = .PAID ∧ inv'.paid_at = some db.now) ∧
      (¬ inv.total - (inv.amount_paid + pd.amount) = 0 →
       0 < inv.amount_paid + pd.amount → inv'.status = .PARTIALLY_PAID) := by
  simp only [PaymentService.record_payment, hfind]
  rw [if_neg h1, if_neg h2,
    if_neg (by omega : ¬ inv.balance_due < pd.amount),
    if_neg (by omega : ¬ pd.amount ≤ 0)]
  by_cases hbd : inv.total - (inv.amount_paid + pd.amount) = 0
  · rw [if_pos hbd]
    exact ⟨_, _, rfl, rfl, rfl, rfl, rfl, rfl, rfl, rfl, rfl,
      fun _ => ⟨rfl, rfl⟩, fun hne _ => absurd hbd hne⟩
  · rw [if_neg hbd]
    by_cases hap : 0 < inv.amount_paid + pd.amount
    · rw [if_pos hap]
      exact ⟨_, _, rfl, rfl, rfl, rfl, rfl, rfl, rfl, rfl, rfl,
        fun h0 => absurd h0 hbd, fun _ _ => rfl⟩
    · rw [if_neg hap]
      exact ⟨_, _, rfl, rfl, rfl, rfl, rfl, rfl, rfl, rfl, rfl,
        fun h0 => absurd h0 hbd, fun _ hp => absurd hp hap⟩

/-- Success shape of `void_payment` on a non-voided payment whose linked
invoice resolves: the payment is flagged voided and the invoice balance is
reversed, with the status recomputation split by branch. -/
theorem void_payment_success (db₁ : DB) (pay : Payment) (vr : String)
    (u : Nat) (invL : Invoice)
    (hnv : pay.is_voided = false)
    (hfind : db₁.invoices.find? (fun i => i.id == pay.invoice_id) =
      some invL) :
    ∃ p' inv₂,
      PaymentService.void_payment db₁ pay vr u =
        .ok (p',
          { db₁ with
            invoices := replaceInvoice db₁.invoices inv₂
            payments := replacePayment db₁.payments p' }) ∧
      p'.is_voided = true ∧
      inv₂.id = invL.id ∧
      inv₂.amount_paid = invL.amount_paid - pay.amount ∧
      inv₂.balance_due = invL.total - (invL.amount_paid - pay.amount) ∧
      (invL.total - (invL.amount_paid - pay.amount) = invL.total →
        inv₂.status =
          (if invL.sent_at.isSome then InvoiceStatus.SENT else .DRAFT) ∧
        inv₂.paid_at = none) ∧
      (¬ invL.total - (invL.amount_paid - pay.amount) = invL.total →
       0 < invL.total - (invL.amount_paid - pay.amount) →
        inv₂.status = .PARTIALLY_PAID ∧ inv₂.paid_at = none) := by
  simp only [PaymentService.void_payment, hnv, Bool.false_eq_true, if_false,
    hfind]
  by_cases hb : invL.total - (invL.amount_paid - pay.amount) = invL.total
  · rw [if_pos hb]
    exact ⟨_, _, rfl, rfl, rfl, rfl, rfl, fun _ => ⟨rfl, rfl⟩,
      fun hne _ => absurd hb hne⟩
  · rw [if_neg hb]
    by_cases hg : 0 < invL.total - (invL.amount_paid - pay.amount)
    · rw [if_pos hg]
      exact ⟨_, _, rfl, rfl, rfl, rfl, rfl, fun h0 => absurd h0 hb,
        fun _ _ => ⟨rfl, rfl⟩⟩
    · rw [if_neg hg]
      exact ⟨_, _, rfl, rfl, rfl, rfl, rfl, fun h0 => absurd h0 hb,
        fun _ hg' => absurd hg' hg⟩

/-- C4: on a reachable invoice (SENT with nothing paid, or PARTIALLY_PAID
with a positive paid amount; `balance_due = total - amount_paid`; unique
ids), validly recording a payment of amount A and then voiding that same
payment restores `amount_paid` and `balance_due` to their pre-payment
values, restores the status to what it was immediately before the payment,
and clears `paid_at`. -/
theorem C4_record_void_roundtrip (db : DB) (orgId : Nat)
    (pd : PaymentCreate) (userId u₂ : Nat) (vreason : String) (inv : Invoice)
    (hfind : findInvoice db orgId pd.invoice_id = some inv)
    (huniq : ∀ x ∈ db.invoices, ∀ y ∈ db.invoices, x.id = y.id → x = y)
    (hbal : inv.balance_due = inv.total - inv.amount_paid)
    (hstat : (inv.status = .SENT ∧ inv.sent_at.isSome ∧ inv.amount_paid = 0) ∨
      (inv.status = .PARTIALLY_PAID ∧ 0 < inv.amount_paid))
    (hpos : 0 < pd.amount) (hle : pd.amount ≤ inv.balance_due) :
    ∃ p db₁ p' db₂ inv₂,
      PaymentService.record_payment db orgId pd userId = .ok (p, db₁) ∧
      PaymentService.void_payment db₁ p vreason u₂ = .ok (p', db₂) ∧
      db₂.invoices = replaceInvoice db₁.invoices inv₂ ∧
      p'.is_voided = true ∧
      inv₂.id = inv.id ∧
      inv₂.amount_paid = inv.amount_paid ∧
      inv₂.balance_due = inv.balance_due ∧
      inv₂.status = inv.status ∧
      inv₂.paid_at = none := by
  have hmem : inv ∈ db.invoices := List.mem_of_find?_eq_some hfind
  have huniq' : ∀ x ∈ db.invoices, x.id = inv.id → x = inv :=
    fun x hx he => huniq x hx inv hmem he
  have hnv : inv.status ≠ .VOID := by
    rcases hstat with ⟨h, -, -⟩ | ⟨h, -⟩ <;> simp [h]
  have hnd : inv.status ≠ .DRAFT := by
    rcases hstat with ⟨h, -, -⟩ | ⟨h, -⟩ <;> simp [h]
  obtain ⟨p, inv', hrec, hpinv, hpamt, hpnv, hid', htot', hsent', hap',
    hbd', -, -⟩ :=
    record_payment_success db orgId pd userId inv hfind hnv hnd hle hpos
  have hfind₂ :
      ({ db with
         invoices := replaceInvoice db.invoices inv'
         payments := p :: db.payments
         next_id := db.next_id + 1 } : DB).invoices.find?
        (fun i => i.id == pd.invoice_id) = some inv' := by
    show (replaceInvoice db.invoices inv').find?
      (fun i => i.id == pd.invoice_id) = some inv'
    have hfid : pd.invoice_id = inv.id := by
      have hb := List.find?_some hfind
      simp only [Bool.and_eq_true, beq_iff_eq, Bool.not_eq_eq_eq_not,
        Bool.not_true] at hb
      exact hb.1.1.symm
    rw [hfid]
    exact find?_id_replaceInvoice db.invoices inv inv' hmem huniq' hid'
  have hfind₂' :
      ({ db with
         invoices := replaceInvoice db.invoices inv'
         payments := p :: db.payments
         next_id := db.next_id + 1 } : DB).invoices.find?
        (fun i => i.id == p.invoice_id) = some inv' := by
    have hfid : pd.invoice_id = inv.id := by
      have hb := List.find?_some hfind
      simp only [Bool.and_eq_true, beq_iff_eq, Bool.not_eq_eq_eq_not,
        Bool.not_true] at hb
      exact hb.1.1.symm
    rw [hpinv, ← hfid]
    exact hfind₂
  obtain ⟨p', inv₂, hvoid, hvd, hid2, hap2, hbd2, hfull, hpart⟩ :=
    void_payment_success _ p vreason u₂ inv' hpnv hfind₂'
  refine ⟨p, _, p', _, inv₂, hrec, hvoid, rfl, hvd, hid2.trans hid', ?_, ?_,
    ?_, ?_⟩
  · rw [hap2, hap', hpamt]; omega
  · rw [hbd2, htot', hap', hpamt]; omega
  · rcases hstat with ⟨hs, hsent, hzero⟩ | ⟨hs, hpaid⟩
    · have hc : inv'.total - (inv'.amount_paid - p.amount) = inv'.total := by
        rw [htot', hap', hpamt]; omega
      have := (hfull hc).1
      rw [this, hsent', if_pos hsent, hs]
    · have hc : ¬ inv'.total - (inv'.amount_paid - p.amount) = inv'.total := by
        rw [htot', hap', hpamt]; omega
      have hg : 0 < inv'.total - (inv'.amount_paid - p.amount) := by
        rw [htot', hap', hpamt]; omega
      rw [(hpart hc hg).1, hs]
  · rcases hstat with ⟨hs, hsent, hzero⟩ | ⟨hs, hpaid⟩
    · have hc : inv'.total - (inv'.amount_paid - p.amount) = inv'.total := by
        rw [htot', hap', hpamt]; omega
      exact (hfull hc).2
    · have hc : ¬ inv'.total - (inv'.amount_paid - p.amount) = inv'.total := by
        rw [htot', hap', hpamt]; omega
      have hg : 0 < inv'.total - (inv'.amount_paid - p.amount) := by
        rw [htot', hap', hpamt]; omega
      exact (hpart hc hg).2

/-- Witness for C4: pay the SENT 286.00 invoice in full, void the payment,
and the invoice is back to SENT / unpaid with `paid_at` cleared. -/
theorem C4_record_void_roundtrip_witness :
    ∃ p db₁ p' db₂ inv₂,
      PaymentService.record_payment w_db 1 w_pay_full 7 = .ok (p, db₁) ∧
      PaymentService.void_payment db₁ p "entered in error" 8 =
        .ok (p', db₂) ∧
      db₂.invoices = replaceInvoice db₁.invoices inv₂ ∧
      p'.is_voided = true ∧
      inv₂.id = w_invoice.id ∧
      inv₂.amount_paid = w_invoice.amount_paid ∧
      inv₂.balance_due = w_invoice.balance_due ∧
      inv₂.status = w_invoice.status ∧
      inv₂.paid_at = none :=
  C4_record_void_roundtrip w_db 1 w_pay_full 7 8 "entered in error"
    w_invoice (by decide) (by decide) (by decide) (Or.inl (by decide))
    (by decide) (by decide)

/-! ## Claim C5: convert_to_invoice -/

/-- C5: `convert_to_invoice` succeeds only from an ACCEPTED quote with no
invoice link; when the quote is not ACCEPTED or already linked it fails with
a ValidationFailure; on success it creates exactly one new DRAFT invoice
whose totals equal the quote's (`amount_paid = 0`, `balance_due = total`)
and whose line items are field-for-field copies of the quote's items (no
recalculation), and flips the quote to CONVERTED with `converted_at` and the
invoice link set; converting the resulting quote again fails with a
ValidationFailure, the session unchanged, so exactly one invoice exists. -/
theorem C5_convert_to_invoice_contract (db : DB) (q : Quote) (userId : Nat) :
    (∀ inv db',
      QuoteService.convert_to_invoice db q userId = .ok (inv, db') →
      q.status = .ACCEPTED ∧ q.converted_invoice_id = none) ∧
    (q.status ≠ .ACCEPTED ∨ q.converted_invoice_id.isSome →
      ∃ m, QuoteService.convert_to_invoice db q userId =
        .error (.validation m)) ∧
    (∀ inv db',
      QuoteService.convert_to_invoice db q userId = .ok (inv, db') →
      inv.status = .DRAFT ∧
      inv.subtotal = q.subtotal ∧ inv.tax_total = q.tax_total ∧
      inv.total = q.total ∧ inv.amount_paid = 0 ∧
      inv.balance_due = q.total ∧
      db'.invoices = inv :: db.invoices ∧
      db'.invoices.length = db.invoices.length + 1 ∧
      db'.invoice_items =
        (db.quote_items.filter (fun qi => qi.quote_id == q.id)).map
          (fun qi =>
            ({ invoice_id := inv.id
               item_id := qi.item_id
               description := qi.description
               quantity := qi.quantity
               rate := qi.rate
               amount := qi.amount
               tax_id := qi.tax_id
               tax_rate := qi.tax_rate
               tax_amount := qi.tax_amount
               total := qi.total
               sort_order := qi.sort_order } : InvoiceItem)) ++
          db.invoice_items ∧
      ∃ q', db'.quotes = replaceQuote db.quotes q' ∧
        q'.id = q.id ∧ q'.status = .CONVERTED ∧
        q'.converted_at = some db.now ∧
        q'.converted_invoice_id = some inv.id ∧
        ∃ m, QuoteService.convert_to_invoice db' q' userId =
          .error (.validation m)) := by
  refine ⟨?_, ?_, ?_⟩
  · intro inv db' h
    unfold QuoteService.convert_to_invoice at h
    split at h
    · simp at h
    next hacc =>
      split at h
      · simp at h
      next hconv =>
        exact ⟨not_not.mp hacc, Option.not_isSome_iff_eq_none.mp hconv⟩
  · intro hcase
    unfold QuoteService.convert_to_invoice
    by_cases hacc : q.status ≠ .ACCEPTED
    · rw [if_pos hacc]
      exact ⟨_, rfl⟩
    · have hsome : q.converted_invoice_id.isSome := by
        rcases hcase with h | h
        · exact absurd h hacc
        · exact h
      rw [if_neg hacc, if_pos hsome]
      exact ⟨_, rfl⟩
  · intro inv db' h
    unfold QuoteService.convert_to_invoice at h
    split at h
    · simp at h
    · split at h
      · simp at h
      · split at h
        · simp at h
        next customer hc =>
          have h1 := (Except.ok.injEq _ _).mp h
          have hinv : inv = _ := ((Prod.mk.injEq _ _ _ _).mp h1.symm).1
          have hdb : db' = _ := ((Prod.mk.injEq _ _ _ _).mp h1.symm).2
          subst hinv; subst hdb
          refine ⟨rfl, rfl, rfl, rfl, rfl, rfl, rfl, by simp, rfl, _, rfl,
            rfl, rfl, rfl, rfl, ?_⟩
          unfold QuoteService.convert_to_invoice
          rw [if_pos (fun hcon => nomatch hcon :
            ¬ QuoteStatus.CONVERTED = .ACCEPTED)]
          exact ⟨_, rfl⟩

/-- An ACCEPTED, unconverted quote totalling 286.00. -/
def w_quote : Quote :=
  { id := 11
    organization_id := 1
    customer_id := 1
    quote_number := "QT-00001".toList
    status := .ACCEPTED
    quote_date := 0
    expiry_date := 30
    subtotal := 25000
    tax_total := 3600
    total := 28600
    currency_code := "INR"
    notes := none
    terms_and_conditions := none
    sent_at := some 10
    accepted_at := some 20
    rejected_at := none
    converted_at := none
    converted_invoice_id := none
    is_deleted := false
    created_by := 7 }

/-- The quote's single line item. -/
def w_qitem : QuoteItem :=
  { quote_id := 11
    item_id := none
    description := "consulting"
    quantity := 2000
    rate := 10000
    amount := 20000
    tax_id := some 5
    tax_rate := 1800
    tax_amount := 3600
    total := 23600
    sort_order := 0 }

/-- Session holding the accepted quote. -/
def w_qdb : DB :=
  { invoices := []
    invoice_items := []
    quotes := [w_quote]
    quote_items := [w_qitem]
    payments := []
    customers := [c7_customer]
    items := []
    taxes := [c7_tax]
    next_id := 30
    now := 300
    today := 5 }

/-- Witness for C5: converting the accepted quote yields one DRAFT invoice
with the quote's totals and verbatim items; converting again fails. -/
theorem C5_convert_to_invoice_witness :
    ∃ inv db',
      QuoteService.convert_to_invoice w_qdb w_quote 7 = .ok (inv, db') ∧
      inv.status = .DRAFT ∧
      inv.subtotal = w_quote.subtotal ∧ inv.tax_total = w_quote.tax_total ∧
      inv.total = w_quote.total ∧ inv.amount_paid = 0 ∧
      inv.balance_due = w_quote.total ∧
      db'.invoices.length = w_qdb.invoices.length + 1 ∧
      ∃ q', db'.quotes = replaceQuote w_qdb.quotes q' ∧
        q'.status = .CONVERTED ∧
        ∃ m, QuoteService.convert_to_invoice db' q' 7 =
          .error (.validation m) := by
  rcases hrun : QuoteService.convert_to_invoice w_qdb w_quote 7
    with e | ⟨inv, db'⟩
  · exfalso
    have hsome :
        (QuoteService.convert_to_invoice w_qdb w_quote 7).toOption.isSome :=
      by decide
    rw [hrun] at hsome
    simp [Except.toOption] at hsome
  · obtain ⟨-, -, -, -, -, -, -, hlen, -, q', hq, -, hstat, -, -, hsecond⟩ :=
      (C5_convert_to_invoice_contract w_qdb w_quote 7).2.2 inv db' hrun
    exact ⟨inv, db', rfl, (C5_convert_to_invoice_contract w_qdb w_quote
      7).2.2 inv db' hrun |>.1,
      ((C5_convert_to_invoice_contract w_qdb w_quote 7).2.2 inv db' hrun).2.1,
      ((C5_convert_to_invoice_contract w_qdb w_quote
        7).2.2 inv db' hrun).2.2.1,
      ((C5_convert_to_invoice_contract w_qdb w_quote
        7).2.2 inv db' hrun).2.2.2.1,
      ((C5_convert_to_invoice_contract w_qdb w_quote
        7).2.2 inv db' hrun).2.2.2.2.1,
      ((C5_convert_to_invoice_contract w_qdb w_quote
        7).2.2 inv db' hrun).2.2.2.2.2.1,
      hlen, q', hq, hstat, hsecond⟩

/-! ## Claim C8: invoice numbering — digit and parsing lemmas -/

/-- ASCII facts about `digitChar` for a single digit. -/
theorem digitChar_facts (d : Nat) (hd : d < 10) :
    (digitChar d).isDigit = true ∧ (digitChar d).toNat = 48 + d ∧
    digitChar d ≠ '-' := by
  interval_cases d <;> exact ⟨by decide, by decide, by decide⟩

/-- The decimal renderer emits only digit characters. -/
theorem toDecimalAux_digits :
    ∀ fuel n, n < fuel → ∀ c ∈ toDecimalAux fuel n, c.isDigit = true := by
  intro fuel
  induction fuel with
  | zero => intro n hn; omega
  | succ fuel ih =>
    intro n _ c hc
    rw [toDecimalAux] at hc
    split at hc
    · rcases List.mem_singleton.mp hc with rfl
      exact (digitChar_facts n (by omega)).1
    · rcases List.mem_append.mp hc with h | h
      · exact ih (n / 10) (by omega) c h
      · rcases List.mem_singleton.mp h with rfl
        exact (digitChar_facts (n % 10) (by omega)).1

/-- The decimal renderer never returns the empty string. -/
theorem toDecimalAux_ne_nil :
    ∀ fuel n, n < fuel → toDecimalAux fuel n ≠ [] := by
  intro fuel n hn
  cases fuel with
  | zero => omega
  | succ fuel =>
    rw [toDecimalAux]
    split
    · simp
    · simp

/-- Folding the base-10 accumulator over a rendered number recovers the
number (shifted by the accumulator). -/
theorem toDecimalAux_foldl :
    ∀ fuel n acc, n < fuel →
      (toDecimalAux fuel n).foldl (fun a c => a * 10 + (c.toNat - 48)) acc =
        acc * 10 ^ (toDecimalAux fuel n).length + n := by
  intro fuel
  induction fuel with
  | zero => intro n acc hn; omega
  | succ fuel ih =>
    intro n acc _
    rw [toDecimalAux]
    split
    · next h =>
      simp only [List.foldl_cons, List.foldl_nil, List.length_singleton]
      rw [(digitChar_facts n (by omega)).2.1, pow_one]
      omega
    · next h =>
      rw [List.foldl_append, List.length_append,
        ih (n / 10) acc (by omega), List.length_singleton,
        List.foldl_cons, List.foldl_nil,
        (digitChar_facts (n % 10) (by omega)).2.1]
      have hmod : 48 + n % 10 - 48 = n % 10 := by omega
      rw [hmod, pow_succ]
      have hdm : n / 10 * 10 + n % 10 = n := by omega
      calc (acc * 10 ^ (toDecimalAux fuel (n / 10)).length + n / 10) * 10 +
            n % 10
          = acc * (10 ^ (toDecimalAux fuel (n / 10)).length * 10) +
            (n / 10 * 10 + n % 10) := by ring
        _ = acc * (10 ^ (toDecimalAux fuel (n / 10)).length * 10) + n := by
            rw [hdm]

/-- `parseDecimal` inverts the zero-padded renderer: Python's
`int(f"{k:05d}")` is `k`. -/
theorem parseDecimal_pad5 (k : Nat) : parseDecimal (pad5 k) = some k := by
  have hne : toDecimal k ≠ [] := toDecimalAux_ne_nil (k + 1) k (by omega)
  have hdig : ∀ c ∈ toDecimal k, c.isDigit = true :=
    toDecimalAux_digits (k + 1) k (by omega)
  have hnonempty : pad5 k ≠ [] := by
    unfold pad5
    intro hcon
    exact hne (List.append_eq_nil.mp hcon).2
  have halldig : ∀ c ∈ pad5 k, c.isDigit = true := by
    intro c hc
    unfold pad5 at hc
    rcases List.mem_append.mp hc with h | h
    · rcases List.eq_of_mem_replicate h with rfl
      decide
    · exact hdig c h
  unfold parseDecimal
  rw [if_neg (by simpa [List.isEmpty_iff] using hnonempty)]
  rw [if_pos (List.all_eq_true.mpr (fun c hc => halldig c hc))]
  congr 1
  unfold pad5
  rw [List.foldl_append]
  have hzeros : ∀ m, (List.replicate m '0').foldl
      (fun a c => a * 10 + (c.toNat - 48)) 0 = 0 := by
    intro m
    induction m with
    | zero => rfl
    | succ m ihm => simpa [List.replicate_succ] using ihm
  rw [hzeros]
  have := toDecimalAux_foldl (k + 1) k 0 (by omega)
  simpa using this

/-- Digit strings contain no separator. -/
theorem dash_not_mem_pad5 (k : Nat) : '-' ∉ pad5 k := by
  intro hmem
  have hdig : ∀ c ∈ toDecimal k, c.isDigit = true :=
    toDecimalAux_digits (k + 1) k (by omega)
  unfold pad5 at hmem
  rcases List.mem_append.mp hmem with h | h
  · rcases List.eq_of_mem_replicate h with h'
    exact absurd h' (by decide)
  · exact absurd (hdig '-' h) (by decide)

/-- A separator-free string does not split. -/
theorem splitOnChar_of_not_mem (c : Char) :
    ∀ l : List Char, c ∉ l → splitOnChar c l = [l] := by
  intro l
  induction l with
  | nil => intro _; rfl
  | cons x xs ih =>
    intro hmem
    have hx : ¬ x = c := fun hcon => hmem (hcon ▸ List.mem_cons_self x xs)
    have hxs : c ∉ xs := fun hcon => hmem (List.mem_cons_of_mem _ hcon)
    rw [splitOnChar, ih hxs]
    simp [hx]

/-- `splitOnChar` always returns at least one field. -/
theorem splitOnChar_ne_nil (c : Char) : ∀ l, splitOnChar c l ≠ [] := by
  intro l
  cases l with
  | nil => simp [splitOnChar]
  | cons x xs =>
    rw [splitOnChar]
    split <;> split <;> simp

/-- Splitting at the first separator after a separator-free head yields the
head as the first field. -/
theorem splitOnChar_append (c : Char) :
    ∀ (l₁ l₂ : List Char), c ∉ l₁ →
      splitOnChar c (l₁ ++ c :: l₂) = l₁ :: splitOnChar c l₂ := by
  intro l₁
  induction l₁ with
  | nil =>
    intro l₂ _
    rw [List.nil_append, splitOnChar]
    cases h : splitOnChar c l₂ with
    | nil => exact absurd h (splitOnChar_ne_nil c l₂)
    | cons g gs => simp
  | cons x xs ih =>
    intro l₂ hmem
    have hx : ¬ x = c := fun hcon => hmem (hcon ▸ List.mem_cons_self x xs)
    have hxs : c ∉ xs := fun hcon => hmem (List.mem_cons_of_mem _ hcon)
    rw [List.cons_append, splitOnChar, ih l₂ hxs]
    simp [hx]

/-- The number-generation parsing step on a well-formed document number:
`int((prefix-part ++ "-" ++ f"{k:05d}").split("-")[1]) + 1 = k + 1`. -/
theorem nextNumberFrom_format (pre : List Char) (k : Nat)
    (hpre : '-' ∉ pre) :
    nextNumberFrom (some (pre ++ '-' :: pad5 k)) = k + 1 := by
  rw [nextNumberFrom, splitOnChar_append '-' pre (pad5 k) hpre,
    splitOnChar_of_not_mem '-' (pad5 k) (dash_not_mem_pad5 k)]
  simp only [List.drop_succ_cons, List.drop_zero]
  rw [parseDecimal_pad5]

example : nextNumberFrom (some ("INV-".toList ++ pad5 7)) = 8 :=
  nextNumberFrom_format ['I', 'N', 'V'] 7 (by decide)

/-- A minimal always-valid invoice request used to model "creating N invoices
sequentially": one catalog-free, tax-free line item. -/
def seq_data : InvoiceCreate :=
  { customer_id := 1
    invoice_date := 0
    due_date := 0
    notes := none
    internal_notes := none
    terms_and_conditions := none
    items :=
      [{ item_id := none
         description := "service"
         quantity := 1000
         rate := 10000
         tax_id := none }] }

/-- A fresh organization database for the numbering run. -/
def seq_db0 : DB :=
  { invoices := []
    invoice_items := []
    quotes := []
    quote_items := []
    payments := []
    customers := [c7_customer]
    items := []
    taxes := []
    next_id := 1
    now := 0
    today := 0 }

/-- The session after creating `n` invoices sequentially in organization 1
(the error branch is unreachable and returns the previous session). -/
def createN : Nat → DB
  | 0 => seq_db0
  | n + 1 =>
    match InvoiceService.create_invoice (createN n) 1 seq_data 7 with
    | .ok (_, db') => db'
    | .error _ => createN n

/-- The invoice created by `create_invoice` carries the caller's
organization id. -/
theorem InvoiceService.create_invoice_org (db : DB) (orgId : Nat)
    (data : InvoiceCreate) (userId : Nat) (inv : Invoice) (db' : DB)
    (h : InvoiceService.create_invoice db orgId data userId = .ok (inv, db')) :
    inv.organization_id = orgId := by
  unfold InvoiceService.create_invoice at h
  split at h
  · simp at h
  · split at h
    · simp at h
    · split at h
      · simp at h
      · have h1 := (Except.ok.injEq _ _).mp h
        have hinv : inv = _ := ((Prod.mk.injEq _ _ _ _).mp h1.symm).1
        subst hinv
        rfl

/-- On any session whose customer table is exactly the scenario customer,
the minimal request succeeds. -/
theorem create_seq_step (db : DB) (hcus : db.customers = [c7_customer]) :
    ∃ inv db',
      InvoiceService.create_invoice db 1 seq_data 7 = .ok (inv, db') := by
  have hfindc : db.customers.find? (fun c =>
      c.id == seq_data.customer_id && c.organization_id == 1 &&
      !c.is_deleted) = some c7_customer := by
    rw [hcus]
    decide
  have hproc : InvoiceService.process_invoice_items db 1 0 seq_data.items =
      .ok [{ item_id := none
             description := "service"
             quantity := 1000
             rate := 10000
             amount := 10000
             tax_id := none
             tax_rate := 0
             tax_amount := 0
             total := 10000
             sort_order := 0 }] := rfl
  rcases hrun : InvoiceService.create_invoice db 1 seq_data 7
    with e | ⟨inv, db'⟩
  · exfalso
    simp only [InvoiceService.create_invoice, hfindc, hproc] at hrun
    rw [if_neg (by decide : ¬ seq_data.due_date < seq_data.invoice_date)]
      at hrun
    simp at hrun
  · exact ⟨inv, db', rfl⟩

/-- Invariant of the sequential run: organization 1 everywhere, customer
table fixed, and the numbers (most recent first) are exactly
`INV-0000n .. INV-00001`. -/
theorem createN_spec : ∀ n,
    (createN n).customers = [c7_customer] ∧
    (∀ i ∈ (createN n).invoices, i.organization_id = 1) ∧
    (createN n).invoices.map (·.invoice_number) =
      (List.range n).map (fun i => "INV-".toList ++ pad5 (n - i)) := by
  intro n
  induction n with
  | zero => exact ⟨rfl, by intro i hi; simp [createN, seq_db0] at hi, rfl⟩
  | succ n ih =>
    obtain ⟨hcus, horg, hmap⟩ := ih
    obtain ⟨inv, db', hstep⟩ := create_seq_step (createN n) hcus
    obtain ⟨customer, calcs, -, -, -, -, -, -, -, -, -, -, hnum, -, hinvs,
      -, -, -, hcuseq, -⟩ :=
      InvoiceService.create_invoice_ok (createN n) 1 seq_data 7 inv db' hstep
    have hstepN : createN (n + 1) = db' := by
      simp only [createN, hstep]
    have hnext : nextNumberFrom
        (((createN n).invoices.find? (fun i => i.organization_id == 1)).map
          (·.invoice_number)) = n + 1 := by
      cases n with
      | zero => decide
      | succ m =>
        cases hinv0 : (createN (m + 1)).invoices with
        | nil =>
          rw [hinv0] at hmap
          simp [List.range_succ] at hmap
        | cons h0 rest =>
          have horg0 : h0.organization_id = 1 :=
            horg h0 (hinv0 ▸ List.mem_cons_self _ _)
          have hnum0 : h0.invoice_number =
              "INV-".toList ++ pad5 (m + 1) := by
            rw [hinv0, List.range_succ_eq_map] at hmap
            simp only [List.map_cons, List.map_map] at hmap
            exact ((List.cons.injEq _ _ _ _).mp hmap).1
          rw [List.find?_cons_of_pos _ (by simp [horg0])]
          show nextNumberFrom (some h0.invoice_number) = m + 1 + 1
          rw [hnum0]
          exact nextNumberFrom_format ['I', 'N', 'V'] (m + 1) (by decide)
    have hgen : InvoiceService.generate_invoice_number (createN n) 1 =
        "INV-".toList ++ pad5 (n + 1) := by
      show "INV-".toList ++ pad5 (nextNumberFrom
        (((createN n).invoices.find? (fun i => i.organization_id == 1)).map
          (·.invoice_number))) = "INV-".toList ++ pad5 (n + 1)
      rw [hnext]
    refine ⟨?_, ?_, ?_⟩
    · rw [hstepN, hcuseq, hcus]
    · intro i hi
      rw [hstepN, hinvs] at hi
      rcases List.mem_cons.mp hi with rfl | hi
      · exact InvoiceService.create_invoice_org (createN n) 1 seq_data 7 i
          db' hstep
      · exact horg i hi
    · rw [hstepN, hinvs, List.map_cons, hnum, hgen, hmap,
        List.range_succ_eq_map, List.map_cons, List.map_map]
      congr 1
      apply List.map_congr_left
      intro i hi
      have harith : n + 1 - (i + 1) = n - i := by omega
      simp [Function.comp, harith]

/-- C8: creating N invoices sequentially in one organization yields exactly
the numbers `INV-00001 .. INV-0000N` (most recently created first): strictly
increasing, gap-free, zero-padded to five digits. The generator parses the
integer after the prefix of the most recently created number and increments
it (`nextNumberFrom_format` conjunct), and starts at 1 when there is no
prior number or its parse fails. -/
theorem C8_invoice_numbering :
    (∀ N, (createN N).invoices.map (·.invoice_number) =
      (List.range N).map (fun i => "INV-".toList ++ pad5 (N - i))) ∧
    (∀ pre k, '-' ∉ pre →
      nextNumberFrom (some (pre ++ '-' :: pad5 k)) = k + 1) ∧
    nextNumberFrom none = 1 ∧
    (∀ s p rest, (splitOnChar '-' s).drop 1 = p :: rest →
      parseDecimal p = none → nextNumberFrom (some s) = 1) := by
  refine ⟨fun N => (createN_spec N).2.2, nextNumberFrom_format, rfl, ?_⟩
  intro s p rest hsplit hparse
  rw [nextNumberFrom, hsplit]
  show (match parseDecimal p with
    | some n => n + 1
    | none => 1) = 1
  rw [hparse]

/-- Witness for C8: three sequential creations number INV-00003, INV-00002,
INV-00001 (most recent first), and the parse-increment step on a concrete
number INV-00012 yields 13. -/
theorem C8_invoice_numbering_witness :
    (createN 3).invoices.map (·.invoice_number) =
      ["INV-00003".toList, "INV-00002".toList, "INV-00001".toList] ∧
    nextNumberFrom (some (['I', 'N', 'V'] ++ '-' :: pad5 12)) = 13 :=
  ⟨(C8_invoice_numbering.1 3).trans (by decide),
   C8_invoice_numbering.2.1 ['I', 'N', 'V'] 12 (by decide)⟩
